import Mathlib

/-!
# Impacto: script VM 3D instruction group, scene state and profile loader

A shallow embedding of the parts of the engine that the specification's
statements are about, followed by the theorems that settle them.

* `src/vm/inst_graphics3d.cpp`: the handlers of the 3D instruction group.
* `src/3d/scene.h`, `src/3d/animation.h`: scene and animation records.
* `src/profile/profile_internal.cpp`, `src/profile/games/rne/sysmesbox.cpp`:
  the JSON profile accessors and one configuration routine.
-/

set_option autoImplicit false

namespace Impacto

/-! ## Logging -/

/-- Severity of a log record (`log.h`). -/
inductive LogLevel
  | LL_Fatal
  | LL_Error
  | LL_Warning
  | LL_Info
  | LL_Debug
deriving DecidableEq, Repr

/-- Channel of a log record (`log.h`); only the channels used below. -/
inductive LogChannel
  | LC_VMStub
  | LC_Profile
deriving DecidableEq, Repr

/-- One argument of a printf-style log call. -/
inductive LogArg
  | int (i : Int)
  | str (s : String)
deriving DecidableEq, Repr

/-- One emitted log record: level, channel, format string and arguments. -/
structure LogRecord where
  level : LogLevel
  channel : LogChannel
  format : String
  args : List LogArg
deriving DecidableEq, Repr

namespace Vm

/-! ## Thread and VM state -/

/-- Liveness state of a script thread. -/
inductive ThreadLiveness
  | Running
  | Waiting
  | Suspended
  | Terminated
deriving DecidableEq, Repr

/-- Modelled from the spec: the script thread record (`vm/thread.h` is not among
the sources). It has a thread id, the instruction cursor `Ip` (a byte offset
into the script buffer it executes), a call/return stack, a local variable bank
and a liveness state. -/
structure Sc3VmThread where
  Id : Nat
  Ip : Nat
  ScriptBuffer : List (Fin 256)
  CallStack : List Nat
  Variables : List Int
  Liveness : ThreadLiveness
deriving DecidableEq, Repr

/-- Modelled from the spec: the state shared by all threads (`game.h` is not
among the sources): the global integer work bank and the global flag bank that
expressions may read. -/
structure GameContext where
  ScrWork : List Int
  FlagWork : List Bool
deriving DecidableEq, Repr

/-- Everything a handler can observe or change: the executing thread, the
global state and the log sink. -/
structure VmState where
  thread : Sc3VmThread
  game : GameContext
  log : List LogRecord
deriving DecidableEq, Repr

/-- A handler either returns a value and a new state, or does not return
(fatal decode error, read outside the script buffer). -/
abbrev VmM (α : Type) := VmState → Option (α × VmState)

/-- Modelled from the spec: the expression evaluator (`expression.h` is not
among the sources). Given the thread (its cursor at the start of an expression)
and the global state, it yields the signed integer value of the expression and
the number of bytes the expression occupies, or nothing when the tokens are
malformed (a fatal decode error). -/
abbrev ExpressionEvaluator := Sc3VmThread → GameContext → Option (Int × Nat)

/-- The state with the instruction cursor moved to `ip`. -/
def VmState.withIp (s : VmState) (ip : Nat) : VmState :=
  { s with thread := { s.thread with Ip := ip } }

/-- Modelled from the spec: `StartInstruction` (`inst_macros.inc` is not among
the sources) steps the cursor past the 16-bit opcode (group byte and opcode
byte). -/
def StartInstruction : VmM Unit :=
  fun s => some ((), s.withIp (s.thread.Ip + 2))

/-- Modelled from the spec: `PopExpression(name)` (`inst_macros.inc` is not
among the sources) evaluates one expression at the cursor through the
evaluator and advances the cursor by the bytes the expression occupies. -/
def PopExpression (ExpressionEval : ExpressionEvaluator) : VmM Int :=
  fun s =>
    match ExpressionEval s.thread s.game with
    | none => none
    | some (value, consumed) => some (value, s.withIp (s.thread.Ip + consumed))

/-- Modelled from the spec: `PopUint8(name)` (`inst_macros.inc` is not among the
sources) reads the raw byte at the cursor and advances the cursor by one. A
cursor outside the script buffer has no byte to read. -/
def PopUint8 : VmM Int :=
  fun s =>
    match s.thread.ScriptBuffer.get? s.thread.Ip with
    | none => none
    | some b => some ((b.val : Int), s.withIp (s.thread.Ip + 1))

/-- The `ImpLogSlow` call: appends one record to the log sink. -/
def ImpLogSlow (level : LogLevel) (channel : LogChannel) (format : String)
    (args : List Int) : VmM Unit :=
  fun s => some ((), { s with log := s.log ++ [⟨level, channel, format, args.map LogArg.int⟩] })

/-- Sequencing of handler steps. -/
def VmM.bind {α β : Type} (m : VmM α) (f : α → VmM β) : VmM β :=
  fun s =>
    match m s with
    | none => none
    | some (a, s1) => f a s1

instance : Monad VmM where
  pure a := fun s => some (a, s)
  bind := VmM.bind

/-! ## Handlers of `inst_graphics3d.cpp` -/

open LogLevel LogChannel

def InstCHAload3D (ExpressionEval : ExpressionEvaluator) : VmM Unit := do
  StartInstruction
  let bufferId ← PopExpression ExpressionEval
  let unk01 ← PopExpression ExpressionEval
  let modelId ← PopExpression ExpressionEval
  ImpLogSlow LL_Warning LC_VMStub
    "STUB instruction CHAload3D(bufferId: %i, unk01: %i, modelId: %i)\n"
    [bufferId, unk01, modelId]

def InstUnk0204 : VmM Unit := pure ()

def InstCHAswap3DMaybe : VmM Unit := pure ()

def InstCHAplayAnim3DMaybe (ExpressionEval : ExpressionEvaluator) : VmM Unit := do
  StartInstruction
  let bufferId ← PopExpression ExpressionEval
  let animationId ← PopExpression ExpressionEval
  let unk01 ← PopUint8
  ImpLogSlow LL_Warning LC_VMStub
    "STUB instruction CHAplayAnim3DMaybe(bufferId: %i, animationId: %i, unk01: %i)\n"
    [bufferId, animationId, unk01]

def InstUnk0210 : VmM Unit := pure ()

def InstUnk0211 : VmM Unit := pure ()

def InstUnk0212 : VmM Unit := pure ()

def InstUnk0213 : VmM Unit := pure ()

def InstUnk0214 : VmM Unit := pure ()

def InstUnk0215 : VmM Unit := pure ()

def InstUnk0216 : VmM Unit := pure ()

def InstUnk0217 : VmM Unit := pure ()

def InstUnk0218 : VmM Unit := pure ()

def InstUnk0240 : VmM Unit := pure ()

/-! ## Reading a handler's operands, as the specification words it -/

/-- The expression that starts at byte offset `ip` of the thread's stream:
its value and its length in bytes, when it is well formed. -/
def exprAt (ExpressionEval : ExpressionEvaluator) (s : VmState) (ip : Nat) :
    Option (Int × Nat) :=
  ExpressionEval { s.thread with Ip := ip } s.game

/-- The raw byte at byte offset `ip` of the thread's stream. -/
def byteAt (s : VmState) (ip : Nat) : Option (Fin 256) :=
  s.thread.ScriptBuffer.get? ip

/-- The state a logging stub leaves: cursor at `ip`, one more log record,
nothing else touched. -/
def stubResult (s : VmState) (ip : Nat) (format : String) (args : List Int) : VmState :=
  { s with
    thread := { s.thread with Ip := ip }
    log := s.log ++ [⟨LL_Warning, LC_VMStub, format, args.map LogArg.int⟩] }

/-- The values and the end offset of `count` consecutive well-formed
expressions of the thread's stream, the first starting at byte offset `ip` and
each one starting where the one before it ends. -/
def exprsAt (ExpressionEval : ExpressionEvaluator) (s : VmState) :
    Nat → Nat → Option (List Int × Nat)
  | 0, ip => some ([], ip)
  | count + 1, ip =>
    match exprAt ExpressionEval s ip with
    | none => none
    | some (value, consumed) =>
      match exprsAt ExpressionEval s count (ip + consumed) with
      | none => none
      | some (values, stop) => some (value :: values, stop)

/-- A one-byte-immediate evaluator for concrete runs: the expression at the
cursor is the single byte there and its value is that byte. It follows the
evaluator contract; the engine's own token set is wider. -/
def immediateEval : ExpressionEvaluator :=
  fun thread _ =>
    match thread.ScriptBuffer.get? thread.Ip with
    | none => none
    | some b => some ((b.val : Int), 1)

/-- A thread at offset 0 of the given stream, with small non-trivial state. -/
def sampleState (stream : List (Fin 256)) : VmState :=
  { thread :=
      { Id := 1, Ip := 0, ScriptBuffer := stream, CallStack := [8],
        Variables := [5, 6], Liveness := ThreadLiveness.Running }
    game := { ScrWork := [1, 2, 3], FlagWork := [true, false] }
    log := [] }

end Vm

/-! ## Scene (`3d/scene.h`) -/

/-- The load status enumeration of `scene.h`. -/
inductive Object3DLoadStatus
  | OLS_Unloaded
  | OLS_Loading
  | OLS_Loaded
deriving DecidableEq, Repr, Fintype

open Object3DLoadStatus

/-- The `Scene` class of `scene.h`, data members only. The camera, background,
character and vector types come from headers that are not among the sources
and are type parameters here. Members with a default member initializer carry
it as a field default. -/
structure Scene (Camera Background3D Character3D Vec3 Vec4 : Type) where
  MainCamera : Camera
  CurrentBackground : Background3D
  CurrentCharacter : Character3D
  CurrentBackgroundLoadStatus : Object3DLoadStatus := OLS_Unloaded
  CurrentCharacterLoadStatus : Object3DLoadStatus := OLS_Unloaded
  LightPosition : Vec3
  Tint : Vec4
  DarkMode : Bool
  BackgroundToLoadId : Nat
  CharacterToLoadId : Nat
  FBO : Nat := 0
  RenderTextureColor : Nat := 0
  RenderTextureDS : Nat := 0
  FBOMultisample : Nat := 0
  RenderbufferColor : Nat := 0
  RenderbufferDS : Nat := 0
  VAOScreenFillingTriangle : Nat := 0
  VBOScreenFillingTriangle : Nat := 0
  ShaderProgram : Nat := 0

namespace Scene

variable {Camera Background3D Character3D Vec3 Vec4 : Type}

/-- A newly constructed scene: the class has no user-written constructor, so
members without an initializer hold whatever value they start with (the
arguments) and the others hold their default member initializer. -/
def construct (camera : Camera) (background : Background3D) (character : Character3D)
    (lightPosition : Vec3) (tint : Vec4) (darkMode : Bool)
    (backgroundToLoadId characterToLoadId : Nat) :
    Scene Camera Background3D Character3D Vec3 Vec4 :=
  { MainCamera := camera
    CurrentBackground := background
    CurrentCharacter := character
    LightPosition := lightPosition
    Tint := tint
    DarkMode := darkMode
    BackgroundToLoadId := backgroundToLoadId
    CharacterToLoadId := characterToLoadId }

/-- The assignment `scene.CurrentBackgroundLoadStatus = status`. -/
def assignBackgroundLoadStatus (scene : Scene Camera Background3D Character3D Vec3 Vec4)
    (status : Object3DLoadStatus) : Scene Camera Background3D Character3D Vec3 Vec4 :=
  { scene with CurrentBackgroundLoadStatus := status }

/-- The assignment `scene.CurrentCharacterLoadStatus = status`. -/
def assignCharacterLoadStatus (scene : Scene Camera Background3D Character3D Vec3 Vec4)
    (status : Object3DLoadStatus) : Scene Camera Background3D Character3D Vec3 Vec4 :=
  { scene with CurrentCharacterLoadStatus := status }

end Scene

/-! ## Animation (`3d/animation.h`) -/

/-- A scalar keyframe. Floats are carried as their raw 32-bit words. -/
structure CoordKeyframe where
  Time : Int
  Value : Int
deriving DecidableEq, Repr

/-- A rotation keyframe: time and the four quaternion components. -/
structure QuatKeyframe where
  Time : Int
  Value : Int × Int × Int × Int
deriving DecidableEq, Repr

/-- The `BoneTrack` record of `animation.h`: seven (offset, count) channel
descriptors into the animation's keyframe arrays. -/
structure BoneTrack where
  Bone : Nat
  TranslateXOffset : Int
  TranslateYOffset : Int
  TranslateZOffset : Int
  ScaleXOffset : Int
  ScaleYOffset : Int
  ScaleZOffset : Int
  RotateOffset : Int
  TranslateXCount : Nat
  TranslateYCount : Nat
  TranslateZCount : Nat
  ScaleXCount : Nat
  ScaleYCount : Nat
  ScaleZCount : Nat
  RotateCount : Nat
deriving DecidableEq, Repr

/-- The `Animation` class of `animation.h`. `BoneTracks` holds the first
`BoneTrackCount` slots of the fixed-size table; the slots after them are never
written by a load and are not represented. -/
structure Animation where
  Id : Nat
  Duration : Int
  CoordKeyframeCount : Int
  CoordKeyframes : List CoordKeyframe
  QuatKeyframeCount : Int
  QuatKeyframes : List QuatKeyframe
  BoneTrackCount : Int
  BoneTracks : List BoneTrack
deriving DecidableEq, Repr

/-- One (offset, count) range lies inside an array of `total` records. -/
def rangeInBounds (offset : Int) (count : Nat) (total : Int) : Prop :=
  0 ≤ offset ∧ offset + (count : Int) ≤ total

instance (offset : Int) (count : Nat) (total : Int) :
    Decidable (rangeInBounds offset count total) := by
  unfold rangeInBounds; infer_instance

/-- Every channel of a track lies inside its keyframe array: the six scalar
channels inside the coordinate keyframes, the rotation channel inside the
quaternion keyframes. -/
def BoneTrack.inBounds (t : BoneTrack) (coordCount quatCount : Int) : Prop :=
  rangeInBounds t.TranslateXOffset t.TranslateXCount coordCount ∧
  rangeInBounds t.TranslateYOffset t.TranslateYCount coordCount ∧
  rangeInBounds t.TranslateZOffset t.TranslateZCount coordCount ∧
  rangeInBounds t.ScaleXOffset t.ScaleXCount coordCount ∧
  rangeInBounds t.ScaleYOffset t.ScaleYCount coordCount ∧
  rangeInBounds t.ScaleZOffset t.ScaleZCount coordCount ∧
  rangeInBounds t.RotateOffset t.RotateCount quatCount

instance (t : BoneTrack) (coordCount quatCount : Int) :
    Decidable (t.inBounds coordCount quatCount) := by
  unfold BoneTrack.inBounds; infer_instance

namespace Animation

/-- A 16-bit unsigned field of the stream. -/
def readCount (word : Int) : Option Nat :=
  if 0 ≤ word ∧ word < 65536 then some word.toNat else none

/-- Modelled from the spec: one entry of the per-bone track table, which is
the bone index followed by the six scalar channel descriptors and the rotation
channel descriptor, each an (offset, count) pair. The stream is a sequence of
decoded fields; a stream that ends inside the entry is truncated. -/
def readTrack : List Int → Option (BoneTrack × List Int)
  | bone :: txo :: txc :: tyo :: tyc :: tzo :: tzc :: sxo :: sxc :: syo :: syc ::
      szo :: szc :: ro :: rc :: rest =>
    match readCount bone, readCount txc, readCount tyc, readCount tzc, readCount sxc,
        readCount syc, readCount szc, readCount rc with
    | some b, some c1, some c2, some c3, some c4, some c5, some c6, some c7 =>
      some ({ Bone := b
              TranslateXOffset := txo, TranslateYOffset := tyo, TranslateZOffset := tzo
              ScaleXOffset := sxo, ScaleYOffset := syo, ScaleZOffset := szo
              RotateOffset := ro
              TranslateXCount := c1, TranslateYCount := c2, TranslateZCount := c3
              ScaleXCount := c4, ScaleYCount := c5, ScaleZCount := c6
              RotateCount := c7 }, rest)
    | _, _, _, _, _, _, _, _ => none
  | _ => none

/-- Modelled from the spec: the first `n` entries of the track table. -/
def readTracks : Nat → List Int → Option (List BoneTrack × List Int)
  | 0, stream => some ([], stream)
  | n + 1, stream =>
    match readTrack stream with
    | none => none
    | some (t, rest) =>
      match readTracks n rest with
      | none => none
      | some (ts, rest1) => some (t :: ts, rest1)

/-- Modelled from the spec: `n` scalar keyframes, stored as (time, value)
records. -/
def readCoordKeyframes : Nat → List Int → Option (List CoordKeyframe × List Int)
  | 0, stream => some ([], stream)
  | n + 1, time :: value :: rest =>
    match readCoordKeyframes n rest with
    | none => none
    | some (ks, rest1) => some (⟨time, value⟩ :: ks, rest1)
  | _ + 1, _ => none

/-- Modelled from the spec: `n` rotation keyframes, stored as (time,
4-component rotation) records. -/
def readQuatKeyframes : Nat → List Int → Option (List QuatKeyframe × List Int)
  | 0, stream => some ([], stream)
  | n + 1, time :: x :: y :: z :: w :: rest =>
    match readQuatKeyframes n rest with
    | none => none
    | some (ks, rest1) => some (⟨time, (x, y, z, w)⟩ :: ks, rest1)
  | _ + 1, _ => none

/-- Modelled from the spec: `Animation::Load`, whose body (`animation.cpp`) is
not among the sources. It reads the header (duration, bone-track count, the
two keyframe counts and the track table), then both keyframe arrays in full.
The load fails fatally (`none`) when the stream is truncated, when the header
is corrupt (a negative count, or more tracks than the fixed table holds) or
when a track references an out-of-bounds keyframe range. `ModelMaxBonesPerModel`
is a constant of `model.h`, which is not among the sources. -/
def Load (ModelMaxBonesPerModel : Nat) (stream : List Int) (id : Nat) : Option Animation :=
  match stream with
  | duration :: trackCount :: coordCount :: quatCount :: table =>
    if 0 ≤ trackCount ∧ trackCount ≤ (ModelMaxBonesPerModel : Int) ∧ 0 ≤ coordCount ∧
        0 ≤ quatCount then
      match readTracks trackCount.toNat table with
      | none => none
      | some (tracks, rest1) =>
        match readCoordKeyframes coordCount.toNat rest1 with
        | none => none
        | some (coords, rest2) =>
          match readQuatKeyframes quatCount.toNat rest2 with
          | none => none
          | some (quats, _) =>
            if ∀ t ∈ tracks, t.inBounds coordCount quatCount then
              some { Id := id
                     Duration := duration
                     CoordKeyframeCount := coordCount
                     CoordKeyframes := coords
                     QuatKeyframeCount := quatCount
                     QuatKeyframes := quats
                     BoneTrackCount := trackCount
                     BoneTracks := tracks }
            else none
    else none
  | _ => none

/-- The track table that a stream names, before any bounds check: the bone
track count, the two keyframe counts and the decoded tracks. -/
def namedTracks (stream : List Int) : Option (List BoneTrack × Int × Int) :=
  match stream with
  | _ :: trackCount :: coordCount :: quatCount :: table =>
    match readTracks trackCount.toNat table with
    | none => none
    | some (tracks, _) => some (tracks, coordCount, quatCount)
  | _ => none

/-- A track whose scalar channels all reference `[coordOffset, coordOffset +
coordCount)` and whose rotation channel references `[quatOffset, quatOffset +
quatCount)`, as stream fields. -/
def trackFields (bone coordOffset coordCount quatOffset quatCount : Int) : List Int :=
  [bone, coordOffset, coordCount, coordOffset, coordCount, coordOffset, coordCount,
   coordOffset, coordCount, coordOffset, coordCount, coordOffset, coordCount,
   quatOffset, quatCount]

/-- The scenario stream: 2 tracks, coordinate ranges [0,3) and [3,5),
quaternion ranges [0,2) and [2,2), 5 scalar and 2 rotation keyframes. -/
def scenarioStream : List Int :=
  [100, 2, 5, 2] ++ trackFields 0 0 3 0 2 ++ trackFields 1 3 2 2 0 ++
  [0, 10, 1, 11, 2, 12, 0, 13, 1, 14] ++ [0, 0, 0, 0, 1, 1, 0, 0, 1, 0]

/-- The scenario stream with the second track's scalar ranges moved to [4,6),
one past the 5 coordinate keyframes. -/
def outOfBoundsStream : List Int :=
  [100, 2, 5, 2] ++ trackFields 0 0 3 0 2 ++ trackFields 1 4 2 2 0 ++
  [0, 10, 1, 11, 2, 12, 0, 13, 1, 14] ++ [0, 0, 0, 0, 1, 1, 0, 0, 1, 0]

/-- The decoded form of `trackFields` with the same arguments. -/
def trackOf (bone : Nat) (coordOffset : Int) (coordCount : Nat) (quatOffset : Int)
    (quatCount : Nat) : BoneTrack :=
  { Bone := bone
    TranslateXOffset := coordOffset, TranslateYOffset := coordOffset
    TranslateZOffset := coordOffset
    ScaleXOffset := coordOffset, ScaleYOffset := coordOffset, ScaleZOffset := coordOffset
    RotateOffset := quatOffset
    TranslateXCount := coordCount, TranslateYCount := coordCount
    TranslateZCount := coordCount
    ScaleXCount := coordCount, ScaleYCount := coordCount, ScaleZCount := coordCount
    RotateCount := quatCount }

end Animation

/-! ## Process-level effects used by the profile loader -/

/-- What the profile accessors can change besides their results: the log sink
and the number of calls made to `Window::Shutdown`. -/
structure ProcessState where
  log : List LogRecord
  shutdownCalls : Nat
deriving DecidableEq, Repr

/-- A profile routine: a result together with the process state it leaves, or
nothing when the routine does not return because a library precondition was
violated on the way (a failed assertion, undefined behaviour). -/
abbrev ProfileM (α : Type) := ProcessState → Option (α × ProcessState)

/-- Sequencing of profile steps. -/
def ProfileM.bind {α β : Type} (m : ProfileM α) (f : α → ProfileM β) : ProfileM β :=
  fun st =>
    match m st with
    | none => none
    | some (a, st1) => f a st1

instance : Monad ProfileM where
  pure a := fun st => some (a, st)
  bind := ProfileM.bind

/-- A call of a routine that touches no process state. -/
def ProfileM.ofOption {α : Type} (result : Option α) : ProfileM α :=
  fun st =>
    match result with
    | none => none
    | some a => some (a, st)

/-- The `ImpLog` call: appends one record to the log sink. -/
def ImpLog (level : LogLevel) (channel : LogChannel) (format : String)
    (args : List String) : ProfileM Unit :=
  fun st =>
    some ((), { st with log := st.log ++ [⟨level, channel, format, args.map LogArg.str⟩] })

namespace Window

/-- Modelled from the spec: `Window::Shutdown` (`window.h` is not among the
sources) is the process shutdown routine invoked on fatal errors. The call is
recorded, and the statements written after each call are kept as the source
has them. -/
def Shutdown : ProfileM Unit :=
  fun st => some ((), { st with shutdownCalls := st.shutdownCalls + 1 })

end Window

namespace Profile

open LogLevel LogChannel

/-! ## JSON values (the rapidjson interface used by `profile_internal.cpp`) -/

/-- The rapidjson `Type` enumeration, in its declared order. -/
inductive JsonType
  | kNullType
  | kFalseType
  | kTrueType
  | kObjectType
  | kArrayType
  | kStringType
  | kNumberType
deriving DecidableEq, Repr

open JsonType

/-- The numeric value of a `Type` enumerator. -/
def JsonType.toNat : JsonType → Nat
  | kNullType => 0
  | kFalseType => 1
  | kTrueType => 2
  | kObjectType => 3
  | kArrayType => 4
  | kStringType => 5
  | kNumberType => 6

/-- A JSON number as rapidjson holds it after parsing: an integer literal, or
a double (every finite double is a rational). -/
inductive JsonNumber
  | int (i : Int)
  | real (d : Rat)
deriving DecidableEq, Repr

/-- A JSON value. An object is its member list in document order. -/
inductive Value
  | null
  | bool (b : Bool)
  | object (members : List (String × Value))
  | array (elements : List Value)
  | string (text : String)
  | number (n : JsonNumber)

instance : Inhabited Value := ⟨Value.null⟩

namespace Value

/-- The `GetType` accessor. -/
def GetType : Value → JsonType
  | null => kNullType
  | bool false => kFalseType
  | bool true => kTrueType
  | object _ => kObjectType
  | array _ => kArrayType
  | string _ => kStringType
  | number _ => kNumberType

/-- The `FindMember` accessor with the comparison against `MemberEnd()` folded in.
rapidjson requires the value to be an object (both calls assert `IsObject()`):
on an object the result is `some` of the search, which is the value of the
first member with the given name or nothing when no member has it; on any
other value the call does not return a result. -/
def FindMember (val : Value) (member : String) : Option (Option Value) :=
  match val with
  | object members => some (members.lookup member)
  | _ => none

end Value

/-- The global `GlobalNull`, which `LoadJsonString` sets to null. -/
def GlobalNull : Value := Value.null

/-- The table `kTypeNames`. -/
def kTypeNames : List String :=
  ["Null", "False", "True", "Object", "Array", "String", "Number"]

/-- The lookup `kTypeNames[type]`. -/
def typeName (type : JsonType) : String :=
  kTypeNames.getD type.toNat ""

/-! ## Accessors of `profile_internal.cpp`

A reference parameter `T& out` becomes an argument carrying the value before
the call and a component of the result carrying the value after it. An
accessor that calls `FindMember` without first checking `IsObject` yields
nothing on a value that is not an object. -/

def TryGetMember (val : Value) (member : String) : Option (Value × Bool) :=
  match val.FindMember member with
  | none => none
  | some (some value) => some (value, true)
  | some none => some (GlobalNull, false)

def EnsureGetMember (val : Value) (path member : String) : ProfileM Value := do
  let (result, success) ← ProfileM.ofOption (TryGetMember val member)
  if success then pure result
  else do
    ImpLog LL_Fatal LC_Profile "Expected %s to have member %s\n" [path, member]
    Window.Shutdown
    pure GlobalNull

def EnsureGetMemberOfType (val : Value) (path member : String) (type : JsonType) :
    ProfileM Value := do
  let result ← EnsureGetMember val path member
  let actualType := result.GetType
  if actualType = type then pure result
  else do
    ImpLog LL_Fatal LC_Profile "Expected %s/%s to have type %s, actual type %s\n"
      [path, member, typeName type, typeName actualType]
    Window.Shutdown
    pure GlobalNull

/-- A pointer into a C string: null, or the address `offset` characters after
the start of the string. -/
inductive CharPtr
  | null
  | offset (n : Nat)
deriving DecidableEq, Repr

/-- The floating-point operations the accessors rely on, over a carrier `F` of
`float` values: the literal zero, rapidjson's `GetFloat` on a number, and the
text-to-double conversion, which yields a value and the count of characters it
consumed. -/
structure FloatOps (F : Type) where
  zero : F
  GetFloat : JsonNumber → F
  strtod : String → F × Nat

/-- The call `SDL_strtod(str, &endp)`: the converted value and the end pointer,
which points into `str` after the consumed characters. -/
def SDL_strtod {F : Type} (fp : FloatOps F) (str : String) : F × CharPtr :=
  ((fp.strtod str).1, CharPtr.offset (fp.strtod str).2)

def TryGetFloat {F : Type} (fp : FloatOps F) (val : Value) (outFloat : F) : Bool × F :=
  match val with
  | Value.number n => (true, fp.GetFloat n)
  | Value.string text =>
    let (value, endp) := SDL_strtod fp text
    if endp ≠ CharPtr.null then (true, value) else (false, value)
  | _ => (false, outFloat)

def TryGetMemberFloat {F : Type} (fp : FloatOps F) (val : Value) (member : String)
    (outFloat : F) : Option (Bool × F) :=
  match val.FindMember member with
  | none => none
  | some none => some (false, outFloat)
  | some (some value) => some (TryGetFloat fp value outFloat)

/-- The local `float result;` has no initializer; its starting value is never
read on the failure path, which returns the literal 0. -/
def EnsureGetMemberFloat {F : Type} (fp : FloatOps F) (val : Value) (path member : String) :
    ProfileM F := do
  let (ok, result) ← ProfileM.ofOption (TryGetMemberFloat fp val member fp.zero)
  if ok then pure result
  else do
    ImpLog LL_Fatal LC_Profile "Expected %s/%s to be float convertible\n" [path, member]
    Window.Shutdown
    pure fp.zero

def TryGetString (val : Value) (outString : String) : Bool × String :=
  match val with
  | Value.string text => (true, text)
  | _ => (false, outString)

def TryGetMemberString (val : Value) (member : String) (outString : String) :
    Option (Bool × String) :=
  match val.FindMember member with
  | none => none
  | some none => some (false, outString)
  | some (some value) => some (TryGetString value outString)

/-- A registry keyed by name (`Sprites`, `Fonts`, `Animations`); `find` is the
lookup of a key. -/
abbrev Registry (α : Type) := List (String × α)

/-- The keys of a registry. -/
def Registry.keys {α : Type} (registry : Registry α) : List String :=
  registry.map Prod.fst

def TryGetSprite {Sprite : Type} (Sprites : Registry Sprite) (val : Value)
    (outSprite : Sprite) : Bool × Sprite :=
  let (isString, spriteName) := TryGetString val ""
  if !isString then (false, outSprite)
  else
    match Sprites.lookup spriteName with
    | none => (false, outSprite)
    | some sprite => (true, sprite)

def TryGetMemberSprite {Sprite : Type} (Sprites : Registry Sprite) (val : Value)
    (member : String) (outSprite : Sprite) : Option (Bool × Sprite) :=
  match TryGetMember val member with
  | none => none
  | some (_member, success) =>
    if !success then some (false, outSprite)
    else some (TryGetSprite Sprites _member outSprite)

/-- The local `Sprite result;` is default-constructed. -/
def EnsureGetMemberSprite {Sprite : Type} [Inhabited Sprite] (Sprites : Registry Sprite)
    (val : Value) (path member : String) : ProfileM Sprite := do
  let (ok, result) ← ProfileM.ofOption (TryGetMemberSprite Sprites val member default)
  if !ok then
    ImpLog LL_Fatal LC_Profile "Expected %s/%s to be Sprite\n" [path, member]
    Window.Shutdown
  pure result

def TryGetFont {Font : Type} (Fonts : Registry Font) (val : Value) (outFont : Font) :
    Bool × Font :=
  let (isString, fontName) := TryGetString val ""
  if !isString then (false, outFont)
  else
    match Fonts.lookup fontName with
    | none => (false, outFont)
    | some font => (true, font)

def TryGetAnimation {SpriteAnimationDef : Type} (Animations : Registry SpriteAnimationDef)
    (val : Value) (outAnimation : SpriteAnimationDef) : Bool × SpriteAnimationDef :=
  let (isString, animName) := TryGetString val ""
  if !isString then (false, outAnimation)
  else
    match Animations.lookup animName with
    | none => (false, outAnimation)
    | some animation => (true, animation)

namespace RNE

namespace SysMesBox

/-- The global tunables that `sysmesbox.cpp` defines in this namespace. -/
structure Globals (Sprite F : Type) where
  BoxDecorationTop : Sprite
  BoxDecorationBottom : Sprite
  TextDecoration : Sprite
  MessageLabel : Sprite
  Line1 : Sprite
  Line2 : Sprite
  LinePositionXFirst : F
  LinePositionX : F
  LinePositionMultiplier : F
  LineWidthFirst : F
  LineWidthBase : F
  LineWidthMultiplier : F
  Line1SpriteY : F
  Line2SpriteY : F
  LineSpriteHeight : F
  LineDisplayXBase : F
  Line1DisplayY : F
  Line2DisplayY : F
  BoxDisplayStartCount : F
  BoxHeightBase : F
  BoxHeightMultiplier : F
  BoxWidth : F
  BoxTextFontSize : F
  BoxTopYBase : F
  BoxDisplayX : F
  MessageLabelSpriteXBase : F
  MessageLabelSpriteY : F
  MessageLabelSpriteHeight : F
  MessageLabelSpriteMultiplier : F
  TextFontSize : F
  TextMiddleY : F
  TextX : F
  TextLineHeight : F
  TextMarginY : F
  AnimationSpeed : F
  FadeInDuration : F
  FadeOutDuration : F

/-- The routine `Configure` of `sysmesbox.cpp`. Its accessor calls are the
one-argument forms of `profile_internal.h`, which is not among the sources;
the profile object and the path they bind are the parameters `val` and `path`.
The returned `SysMesBox` object is freshly allocated and carries no data, so
the result here is the namespace's globals after the call. Each source
statement `X = EnsureGetMember...("X")` reads one member and assigns one
global; no accessor reads a global, so the reads are listed in source order
and the assignments are written together at the end. -/
def Configure {Sprite F : Type} [Inhabited Sprite] (fp : FloatOps F)
    (Sprites : Registry Sprite) (val : Value) (path : String) (g : Globals Sprite F) :
    ProfileM (Globals Sprite F) := do
  let vBoxDecorationTop ← EnsureGetMemberSprite Sprites val path "BoxDecorationTop"
  let vBoxDecorationBottom ← EnsureGetMemberSprite Sprites val path "BoxDecorationBottom"
  let vTextDecoration ← EnsureGetMemberSprite Sprites val path "TextDecoration"
  let vMessageLabel ← EnsureGetMemberSprite Sprites val path "MessageLabel"
  let vLine1 ← EnsureGetMemberSprite Sprites val path "Line1"
  let vLine2 ← EnsureGetMemberSprite Sprites val path "Line2"
  let vLinePositionXFirst ← EnsureGetMemberFloat fp val path "LinePositionXFirst"
  let vLinePositionX ← EnsureGetMemberFloat fp val path "LinePositionX"
  let vLinePositionMultiplier ← EnsureGetMemberFloat fp val path "LinePositionMultiplier"
  let vLineWidthFirst ← EnsureGetMemberFloat fp val path "LineWidthFirst"
  let vLineWidthBase ← EnsureGetMemberFloat fp val path "LineWidthBase"
  let vLineWidthMultiplier ← EnsureGetMemberFloat fp val path "LineWidthMultiplier"
  let vLine1SpriteY ← EnsureGetMemberFloat fp val path "Line1SpriteY"
  let vLine2SpriteY ← EnsureGetMemberFloat fp val path "Line2SpriteY"
  let vLineSpriteHeight ← EnsureGetMemberFloat fp val path "LineSpriteHeight"
  let vLineDisplayXBase ← EnsureGetMemberFloat fp val path "LineDisplayXBase"
  let vLine1DisplayY ← EnsureGetMemberFloat fp val path "Line1DisplayY"
  let vLine2DisplayY ← EnsureGetMemberFloat fp val path "Line2DisplayY"
  let vBoxDisplayStartCount ← EnsureGetMemberFloat fp val path "BoxDisplayStartCount"
  let vBoxHeightBase ← EnsureGetMemberFloat fp val path "BoxHeightBase"
  let vBoxHeightMultiplier ← EnsureGetMemberFloat fp val path "BoxHeightMultiplier"
  let vBoxWidth ← EnsureGetMemberFloat fp val path "BoxWidth"
  let vBoxTextFontSize ← EnsureGetMemberFloat fp val path "BoxTextFontSize"
  let vBoxTopYBase ← EnsureGetMemberFloat fp val path "BoxTopYBase"
  let vBoxDisplayX ← EnsureGetMemberFloat fp val path "BoxDisplayX"
  let vMessageLabelSpriteXBase ← EnsureGetMemberFloat fp val path "MessageLabelSpriteXBase"
  let vMessageLabelSpriteY ← EnsureGetMemberFloat fp val path "MessageLabelSpriteY"
  let vMessageLabelSpriteHeight ← EnsureGetMemberFloat fp val path "MessageLabelSpriteHeight"
  let vMessageLabelSpriteMultiplier ←
    EnsureGetMemberFloat fp val path "MessageLabelSpriteMultiplier"
  pure { g with
    BoxDecorationTop := vBoxDecorationTop
    BoxDecorationBottom := vBoxDecorationBottom
    TextDecoration := vTextDecoration
    MessageLabel := vMessageLabel
    Line1 := vLine1
    Line2 := vLine2
    LinePositionXFirst := vLinePositionXFirst
    LinePositionX := vLinePositionX
    LinePositionMultiplier := vLinePositionMultiplier
    LineWidthFirst := vLineWidthFirst
    LineWidthBase := vLineWidthBase
    LineWidthMultiplier := vLineWidthMultiplier
    Line1SpriteY := vLine1SpriteY
    Line2SpriteY := vLine2SpriteY
    LineSpriteHeight := vLineSpriteHeight
    LineDisplayXBase := vLineDisplayXBase
    Line1DisplayY := vLine1DisplayY
    Line2DisplayY := vLine2DisplayY
    BoxDisplayStartCount := vBoxDisplayStartCount
    BoxHeightBase := vBoxHeightBase
    BoxHeightMultiplier := vBoxHeightMultiplier
    BoxWidth := vBoxWidth
    BoxTextFontSize := vBoxTextFontSize
    BoxTopYBase := vBoxTopYBase
    BoxDisplayX := vBoxDisplayX
    MessageLabelSpriteXBase := vMessageLabelSpriteXBase
    MessageLabelSpriteY := vMessageLabelSpriteY
    MessageLabelSpriteHeight := vMessageLabelSpriteHeight
    MessageLabelSpriteMultiplier := vMessageLabelSpriteMultiplier }

/-- The sprite globals the specification lists for `Configure`. -/
def spriteKeys : List String :=
  ["BoxDecorationTop", "BoxDecorationBottom", "TextDecoration", "MessageLabel", "Line1", "Line2"]

/-- The float globals the specification lists for `Configure`, from
`LinePositionXFirst` to `MessageLabelSpriteMultiplier`. -/
def floatKeys : List String :=
  ["LinePositionXFirst", "LinePositionX", "LinePositionMultiplier", "LineWidthFirst",
   "LineWidthBase", "LineWidthMultiplier", "Line1SpriteY", "Line2SpriteY",
   "LineSpriteHeight", "LineDisplayXBase", "Line1DisplayY", "Line2DisplayY",
   "BoxDisplayStartCount", "BoxHeightBase", "BoxHeightMultiplier", "BoxWidth",
   "BoxTextFontSize", "BoxTopYBase", "BoxDisplayX", "MessageLabelSpriteXBase",
   "MessageLabelSpriteY", "MessageLabelSpriteHeight", "MessageLabelSpriteMultiplier"]

/-- The sprite that the profile object holds under `key`: the member is a
string naming an entry of the sprite registry. -/
def profileSprite {Sprite : Type} (Sprites : Registry Sprite) (val : Value) (key : String) :
    Option Sprite :=
  match val.FindMember key with
  | some (some (Value.string name)) => Sprites.lookup name
  | _ => none

/-- The float that the profile object holds under `key`: the member is a
number, or a string holding the text of one. -/
def profileFloat {F : Type} (fp : FloatOps F) (val : Value) (key : String) : Option F :=
  match val.FindMember key with
  | some (some (Value.number n)) => some (fp.GetFloat n)
  | some (some (Value.string text)) => some (fp.strtod text).1
  | _ => none

end SysMesBox

end RNE

/-! ## Type checks on several types -/

deriving instance Fintype for JsonType

/-- One pass of the loop that fills `typeList`: `(text, first)` is the buffer's
text so far and the flag `first`; the separator is appended unless `first`,
then the type's name. -/
def typeListStep (state : String × Bool) (type : JsonType) : String × Bool :=
  let text := if !state.2 then state.1 ++ ", " else state.1
  (text ++ typeName type, false)

/-- The text held by `char typeList[80]` after the loop of `AssertIsOneOf` and
`EnsureGetMemberOfTypes`: the buffer starts zeroed, so it holds the empty
text, and each `strcat` appends to it. -/
def buildTypeList (types : List JsonType) : String :=
  (types.foldl typeListStep ("", true)).1

/-- The size of the buffer `typeList`. -/
def typeListSize : Nat := 80

def AssertIsOneOf (val : Value) (path : String) (types : List JsonType) : ProfileM Value := do
  let actualType := val.GetType
  if actualType ∈ types then pure val
  else do
    let typeList := buildTypeList types
    ImpLog LL_Fatal LC_Profile "Expected %s to have type in (%s), actual type %s\n"
      [path, typeList, typeName actualType]
    Window.Shutdown
    pure GlobalNull

def EnsureGetMemberOfTypes (val : Value) (path member : String) (types : List JsonType) :
    ProfileM Value := do
  let result ← EnsureGetMember val path member
  let actualType := result.GetType
  if actualType ∈ types then pure result
  else do
    let typeList := buildTypeList types
    ImpLog LL_Fatal LC_Profile "Expected %s/%s to have type in (%s), actual type %s\n"
      [path, member, typeList, typeName actualType]
    Window.Shutdown
    pure GlobalNull

/-! ## Integer accessors -/

namespace JsonNumber

/-- The `IsInt` flag: the number is held as an integer that fits a 32-bit
signed `int`. A number held as a double does not have it. -/
def IsInt : JsonNumber → Bool
  | int i => decide (-2147483648 ≤ i ∧ i ≤ 2147483647)
  | real _ => false

/-- The `IsUint` flag: the number is held as an integer that fits a 32-bit
unsigned `unsigned`. -/
def IsUint : JsonNumber → Bool
  | int i => decide (0 ≤ i ∧ i ≤ 4294967295)
  | real _ => false

end JsonNumber

namespace Value

def IsInt : Value → Bool
  | number n => n.IsInt
  | _ => false

def IsUint : Value → Bool
  | number n => n.IsUint
  | _ => false

def IsNumber : Value → Bool
  | number _ => true
  | _ => false

def IsString : Value → Bool
  | string _ => true
  | _ => false

def IsObject : Value → Bool
  | object _ => true
  | _ => false

/-- The `GetInt` accessor, called only on a value with the `IsInt` flag. -/
def GetInt : Value → Int
  | number (JsonNumber.int i) => i
  | _ => 0

/-- The `GetUint` accessor, called only on a value with the `IsUint` flag. -/
def GetUint : Value → Nat
  | number (JsonNumber.int i) => i.toNat
  | _ => 0

/-- The `GetString` accessor, called only on a string. -/
def GetString : Value → String
  | string text => text
  | _ => ""

end Value

/-- The C text-to-integer conversions the accessors rely on (SDL, an external
library), in base 10: each yields the converted value, as it arrives in the
`int` or `uint32_t` variable it is assigned to, and the count of characters it
consumed. -/
structure IntegerOps where
  strtol : String → Int × Nat
  strtoul : String → Nat × Nat

/-- The call `SDL_strtol(str, &endp, 10)`: the converted value and the end
pointer, which points into `str` after the consumed characters. -/
def SDL_strtol (ops : IntegerOps) (str : String) : Int × CharPtr :=
  ((ops.strtol str).1, CharPtr.offset (ops.strtol str).2)

/-- The call `SDL_strtoul(str, &endp, 10)`. -/
def SDL_strtoul (ops : IntegerOps) (str : String) : Nat × CharPtr :=
  ((ops.strtoul str).1, CharPtr.offset (ops.strtoul str).2)

def TryGetInt (ops : IntegerOps) (val : Value) (outInt : Int) : Bool × Int :=
  if val.IsInt then (true, val.GetInt)
  else if val.IsString then
    let (value, endp) := SDL_strtol ops val.GetString
    if endp ≠ CharPtr.null then (true, value) else (false, value)
  else (false, outInt)

def TryGetMemberInt (ops : IntegerOps) (val : Value) (member : String) (outInt : Int) :
    Option (Bool × Int) :=
  match val.FindMember member with
  | none => none
  | some none => some (false, outInt)
  | some (some value) => some (TryGetInt ops value outInt)

/-- The local `int result;` has no initializer; its starting value is never
read on the failure path, which returns the literal 0. -/
def EnsureGetInt (ops : IntegerOps) (val : Value) (path : String) : ProfileM Int := do
  let (ok, result) := TryGetInt ops val 0
  if ok then pure result
  else do
    ImpLog LL_Fatal LC_Profile "Expected %s to be integer convertible\n" [path]
    Window.Shutdown
    pure 0

def TryGetUint (ops : IntegerOps) (val : Value) (outUint : Nat) : Bool × Nat :=
  if val.IsUint then (true, val.GetUint)
  else if val.IsString then
    let (value, endp) := SDL_strtoul ops val.GetString
    if endp ≠ CharPtr.null then (true, value) else (false, value)
  else (false, outUint)

def TryGetMemberUint (ops : IntegerOps) (val : Value) (member : String) (outUint : Nat) :
    Option (Bool × Nat) :=
  match val.FindMember member with
  | none => none
  | some none => some (false, outUint)
  | some (some value) => some (TryGetUint ops value outUint)

/-- The number a run of decimal digits denotes. -/
def digitsValue (digits : List Char) : Nat :=
  digits.foldl (fun acc c => 10 * acc + (c.toNat - 48)) 0

/-- The value of the longest leading decimal-integer prefix of a text, which
is an optional minus sign followed by decimal digits; 0 when the text has no
such prefix. -/
def decimalPrefixValue (text : String) : Int :=
  match text.data with
  | '-' :: rest => -((digitsValue (rest.takeWhile Char.isDigit) : Nat) : Int)
  | chars => ((digitsValue (chars.takeWhile Char.isDigit) : Nat) : Int)

/-! ### The base-10 conversions of the C library

`SDL_strtol` and `SDL_strtoul` are the C library's `strtol` and `strtoul`. They
are external to the repository; the definitions below follow the C standard's
description of them, with `long` and `unsigned long` 64 bits wide. -/

/-- The white-space characters that a conversion skips (`isspace` in the C
locale): space and the controls 9 to 13. -/
def isCSpace (c : Char) : Bool :=
  c.toNat == 32 || (9 ≤ c.toNat && c.toNat ≤ 13)

/-- The subject of a base-10 conversion: after the leading white space, an
optional sign and the longest run of decimal digits. The result tells whether
a minus sign was read, and gives the digits. -/
def subjectSequence (text : String) : Bool × List Char :=
  match text.data.dropWhile isCSpace with
  | '-' :: rest => (true, rest.takeWhile Char.isDigit)
  | '+' :: rest => (false, rest.takeWhile Char.isDigit)
  | chars => (false, chars.takeWhile Char.isDigit)

/-- The count of characters a conversion consumes: none when the subject has
no digit, otherwise the white space, the sign and the digits. -/
def subjectLength (text : String) : Nat :=
  match text.data.dropWhile isCSpace with
  | '-' :: rest =>
    if (rest.takeWhile Char.isDigit).isEmpty then 0
    else (text.data.takeWhile isCSpace).length + 1 + (rest.takeWhile Char.isDigit).length
  | '+' :: rest =>
    if (rest.takeWhile Char.isDigit).isEmpty then 0
    else (text.data.takeWhile isCSpace).length + 1 + (rest.takeWhile Char.isDigit).length
  | chars =>
    if (chars.takeWhile Char.isDigit).isEmpty then 0
    else (text.data.takeWhile isCSpace).length + (chars.takeWhile Char.isDigit).length

/-- The signed number that the subject of a text denotes; 0 when it has no
digit. -/
def subjectValue (text : String) : Int :=
  if (subjectSequence text).1 then -((digitsValue (subjectSequence text).2 : Nat) : Int)
  else ((digitsValue (subjectSequence text).2 : Nat) : Int)

/-- The text begins with neither white space nor a plus sign, so that its
subject starts at its first character and has at most a minus sign. -/
def startsPlain (text : String) : Bool :=
  match text.data with
  | [] => true
  | c :: _ => !isCSpace c && c != '+'

/-- The least value of a 64-bit `long`. -/
def LONG_MIN : Int := -9223372036854775808

/-- The greatest value of a 64-bit `long`. -/
def LONG_MAX : Int := 9223372036854775807

/-- The greatest value of a 64-bit `unsigned long`. -/
def ULONG_MAX : Nat := 18446744073709551615

/-- The `long` that `strtol(text, &endp, 10)` returns: the subject's value, or
the nearest bound of `long` when the value is out of range. -/
def strtolResult (text : String) : Int :=
  if subjectValue text < LONG_MIN then LONG_MIN
  else if LONG_MAX < subjectValue text then LONG_MAX
  else subjectValue text

/-- The `unsigned long` that `strtoul(text, &endp, 10)` returns: `ULONG_MAX` when
the digits are out of range, otherwise the digits' value, negated in
`unsigned long` arithmetic when a minus sign was read. -/
def strtoulResult (text : String) : Nat :=
  if ULONG_MAX < digitsValue (subjectSequence text).2 then ULONG_MAX
  else if (subjectSequence text).1 then
    (ULONG_MAX + 1 - digitsValue (subjectSequence text).2) % (ULONG_MAX + 1)
  else digitsValue (subjectSequence text).2

/-- The conversion of a `long` to the 32-bit `int` it is assigned to. -/
def narrowToInt (value : Int) : Int :=
  (value + 2147483648) % 4294967296 - 2147483648

/-- The conversion of an `unsigned long` to the `uint32_t` it is assigned to. -/
def narrowToUint32 (value : Nat) : Nat :=
  value % 4294967296

/-- The C library's base-10 conversions, as they arrive in the `int` and
`uint32_t` variables of `TryGetInt` and `TryGetUint`. -/
def libcIntegerOps : IntegerOps :=
  { strtol := fun text => (narrowToInt (strtolResult text), subjectLength text)
    strtoul := fun text => (narrowToUint32 (strtoulResult text), subjectLength text) }

/-! ## Vectors and asset paths -/

/-- The `glm::vec2` record over a carrier `F` of `float` values. -/
structure Vec2 (F : Type) where
  x : F
  y : F

def TryGetVec2 {F : Type} (fp : FloatOps F) (val : Value) (outVec : Vec2 F) :
    Option (Bool × Vec2 F) :=
  if !val.IsObject then some (false, outVec)
  else
    match TryGetMemberFloat fp val "X" outVec.x with
    | none => none
    | some (okX, x) =>
      if !okX then some (false, { outVec with x := x })
      else
        match TryGetMemberFloat fp val "Y" outVec.y with
        | none => none
        | some (okY, y) => some (okY, { x := x, y := y })

/-- The `Io::AssetPath` record (`io/assetpath.h` is not among the sources):
the members that `TryGetAssetPath` assigns. -/
structure AssetPath where
  Mount : String
  Id : Nat
  FileName : String
deriving DecidableEq, Repr

def TryGetAssetPath (ops : IntegerOps) (val : Value) (outPath : AssetPath) :
    Option (Bool × AssetPath) :=
  if val.IsString then
    some (true, { Mount := "", Id := 0, FileName := val.GetString })
  else if !val.IsObject then some (false, outPath)
  else
    match TryGetMemberUint ops val "Id" outPath.Id with
    | none => none
    | some (okId, id) =>
      if !okId then some (false, { outPath with Id := id })
      else
        match TryGetMemberString val "Mount" "" with
        | none => none
        | some (okMount, _mount) =>
          if !okMount then some (false, { outPath with Id := id })
          else some (true, { outPath with Id := id, Mount := _mount })

/-! ## Concrete data for running the accessors -/

/-- A float carrier for concrete runs that keeps integer literals exact. -/
def sampleFloatOps : FloatOps Int :=
  { zero := 0
    GetFloat := fun n =>
      match n with
      | JsonNumber.int i => i
      | JsonNumber.real d => d.floor
    strtod := fun _ => (0, 0) }

/-- A sprite registry for concrete runs; sprites are stood for by numbers. -/
def sampleSprites : Registry Nat :=
  [("sysmes_top", 1), ("sysmes_bottom", 2), ("sysmes_text", 3),
   ("sysmes_label", 4), ("sysmes_line1", 5), ("sysmes_line2", 6)]

/-- A process state with an empty log and no shutdown call. -/
def freshProcess : ProcessState := { log := [], shutdownCalls := 0 }

namespace RNE

namespace SysMesBox

/-- A profile object holding every key that `Configure` reads. -/
def sampleProfile : Value :=
  Value.object
    [("BoxDecorationTop", Value.string "sysmes_top"),
     ("BoxDecorationBottom", Value.string "sysmes_bottom"),
     ("TextDecoration", Value.string "sysmes_text"),
     ("MessageLabel", Value.string "sysmes_label"),
     ("Line1", Value.string "sysmes_line1"),
     ("Line2", Value.string "sysmes_line2"),
     ("LinePositionXFirst", Value.number (JsonNumber.int 10)),
     ("LinePositionX", Value.number (JsonNumber.int 11)),
     ("LinePositionMultiplier", Value.number (JsonNumber.int 12)),
     ("LineWidthFirst", Value.number (JsonNumber.int 13)),
     ("LineWidthBase", Value.number (JsonNumber.int 14)),
     ("LineWidthMultiplier", Value.number (JsonNumber.int 15)),
     ("Line1SpriteY", Value.number (JsonNumber.int 16)),
     ("Line2SpriteY", Value.number (JsonNumber.int 17)),
     ("LineSpriteHeight", Value.number (JsonNumber.int 18)),
     ("LineDisplayXBase", Value.number (JsonNumber.int 19)),
     ("Line1DisplayY", Value.number (JsonNumber.int 20)),
     ("Line2DisplayY", Value.number (JsonNumber.int 21)),
     ("BoxDisplayStartCount", Value.number (JsonNumber.int 22)),
     ("BoxHeightBase", Value.number (JsonNumber.int 23)),
     ("BoxHeightMultiplier", Value.number (JsonNumber.int 24)),
     ("BoxWidth", Value.number (JsonNumber.int 25)),
     ("BoxTextFontSize", Value.number (JsonNumber.int 26)),
     ("BoxTopYBase", Value.number (JsonNumber.int 27)),
     ("BoxDisplayX", Value.number (JsonNumber.int 28)),
     ("MessageLabelSpriteXBase", Value.number (JsonNumber.int 29)),
     ("MessageLabelSpriteY", Value.number (JsonNumber.int 30)),
     ("MessageLabelSpriteHeight", Value.number (JsonNumber.int 31)),
     ("MessageLabelSpriteMultiplier", Value.number (JsonNumber.int 32))]

/-- Globals before a run, every tunable holding a value of its own. -/
def sampleGlobals : Globals Nat Int :=
  { BoxDecorationTop := 100
    BoxDecorationBottom := 101
    TextDecoration := 102
    MessageLabel := 103
    Line1 := 104
    Line2 := 105
    LinePositionXFirst := 200
    LinePositionX := 201
    LinePositionMultiplier := 202
    LineWidthFirst := 203
    LineWidthBase := 204
    LineWidthMultiplier := 205
    Line1SpriteY := 206
    Line2SpriteY := 207
    LineSpriteHeight := 208
    LineDisplayXBase := 209
    Line1DisplayY := 210
    Line2DisplayY := 211
    BoxDisplayStartCount := 212
    BoxHeightBase := 213
    BoxHeightMultiplier := 214
    BoxWidth := 215
    BoxTextFontSize := 216
    BoxTopYBase := 217
    BoxDisplayX := 218
    MessageLabelSpriteXBase := 219
    MessageLabelSpriteY := 220
    MessageLabelSpriteHeight := 221
    MessageLabelSpriteMultiplier := 222
    TextFontSize := 300
    TextMiddleY := 301
    TextX := 302
    TextLineHeight := 303
    TextMarginY := 304
    AnimationSpeed := 305
    FadeInDuration := 306
    FadeOutDuration := 307 }

end SysMesBox

end RNE

end Profile

end Impacto

/-! # Theorems -/

namespace Impacto

namespace Vm

open LogLevel LogChannel

/-! ## Stepping through a handler -/

theorem exprsAt_zero_inv {ev : ExpressionEvaluator} {s : VmState} {ip e : Nat} {vs : List Int}
    (h : exprsAt ev s 0 ip = some (vs, e)) : vs = [] ∧ e = ip := by
  simp [exprsAt] at h
  exact ⟨h.1, h.2.symm⟩

theorem exprsAt_succ_inv {ev : ExpressionEvaluator} {s : VmState} {k ip e : Nat} {vs : List Int}
    (h : exprsAt ev s (k + 1) ip = some (vs, e)) :
    ∃ v n rest, exprAt ev s ip = some (v, n) ∧ exprsAt ev s k (ip + n) = some (rest, e) ∧
      vs = v :: rest := by
  simp only [exprsAt] at h
  split at h
  · simp at h
  · rename_i v n h1
    split at h
    · simp at h
    · rename_i rest e1 h2
      simp at h
      exact ⟨v, n, rest, h1, by rw [h2, h.2], h.1.symm⟩

theorem bind_some {α β : Type} {m : VmM α} {f : α → VmM β} {s s1 : VmState} {a : α}
    (h : m s = some (a, s1)) : (m >>= f) s = f a s1 := by
  show VmM.bind m f s = f a s1
  simp [VmM.bind, h]

theorem StartInstruction_step (s : VmState) :
    StartInstruction s = some ((), s.withIp (s.thread.Ip + 2)) := rfl

theorem PopExpression_step {ev : ExpressionEvaluator} {s : VmState} {ip n : Nat} {v : Int}
    (h : exprAt ev s ip = some (v, n)) :
    PopExpression ev (s.withIp ip) = some (v, s.withIp (ip + n)) := by
  have h2 : ev (s.withIp ip).thread (s.withIp ip).game = some (v, n) := h
  simp only [PopExpression, h2]
  rfl

theorem PopUint8_step {s : VmState} {ip : Nat} {b : Fin 256} (h : byteAt s ip = some b) :
    PopUint8 (s.withIp ip) = some ((b.val : Int), s.withIp (ip + 1)) := by
  have h2 : (s.withIp ip).thread.ScriptBuffer.get? (s.withIp ip).thread.Ip = some b := h
  simp only [PopUint8, h2]
  rfl

theorem ImpLogSlow_step (s : VmState) (ip : Nat) (f : String) (a : List Int) :
    ImpLogSlow LL_Warning LC_VMStub f a (s.withIp ip) = some ((), stubResult s ip f a) := rfl

theorem InstCHAload3D_run (ev : ExpressionEvaluator) (s : VmState) (vs : List Int) (e : Nat)
    (h : exprsAt ev s 3 (s.thread.Ip + 2) = some (vs, e)) :
    InstCHAload3D ev s = some ((), stubResult s e
      "STUB instruction CHAload3D(bufferId: %i, unk01: %i, modelId: %i)\n" vs) := by
  obtain ⟨v1, n1, r1, h1, k1, rfl⟩ := exprsAt_succ_inv h
  obtain ⟨v2, n2, r2, h2, k2, rfl⟩ := exprsAt_succ_inv k1
  obtain ⟨v3, n3, r3, h3, k3, rfl⟩ := exprsAt_succ_inv k2
  obtain ⟨rfl, rfl⟩ := exprsAt_zero_inv k3
  unfold InstCHAload3D
  rw [bind_some (StartInstruction_step s), bind_some (PopExpression_step h1),
    bind_some (PopExpression_step h2), bind_some (PopExpression_step h3), ImpLogSlow_step]

theorem InstCHAplayAnim3DMaybe_run (ev : ExpressionEvaluator) (s : VmState) (vs : List Int)
    (e : Nat) (b : Fin 256)
    (h : exprsAt ev s 2 (s.thread.Ip + 2) = some (vs, e)) (hb : byteAt s e = some b) :
    InstCHAplayAnim3DMaybe ev s = some ((), stubResult s (e + 1)
      "STUB instruction CHAplayAnim3DMaybe(bufferId: %i, animationId: %i, unk01: %i)\n"
      (vs ++ [(b.val : Int)])) := by
  obtain ⟨v1, n1, r1, h1, k1, rfl⟩ := exprsAt_succ_inv h
  obtain ⟨v2, n2, r2, h2, k2, rfl⟩ := exprsAt_succ_inv k1
  obtain ⟨rfl, rfl⟩ := exprsAt_zero_inv k2
  unfold InstCHAplayAnim3DMaybe
  rw [bind_some (StartInstruction_step s), bind_some (PopExpression_step h1),
    bind_some (PopExpression_step h2), bind_some (PopUint8_step hb), ImpLogSlow_step]
  rfl

/-- C1: for every thread state and global state, the handler of opcode 0x0204
(`InstUnk0204`) returns with the thread state (its cursor included), the
global state and the log exactly as before the call, so it emits no log
record and does not abort; the same holds for every other empty handler of
the group (`InstCHAswap3DMaybe`, `InstUnk0210` to `InstUnk0218`,
`InstUnk0240`). -/
theorem empty_handlers_are_no_ops (s : VmState) :
    InstUnk0204 s = some ((), s) ∧
    InstCHAswap3DMaybe s = some ((), s) ∧
    InstUnk0210 s = some ((), s) ∧
    InstUnk0211 s = some ((), s) ∧
    InstUnk0212 s = some ((), s) ∧
    InstUnk0213 s = some ((), s) ∧
    InstUnk0214 s = some ((), s) ∧
    InstUnk0215 s = some ((), s) ∧
    InstUnk0216 s = some ((), s) ∧
    InstUnk0217 s = some ((), s) ∧
    InstUnk0218 s = some ((), s) ∧
    InstUnk0240 s = some ((), s) :=
  ⟨rfl, rfl, rfl, rfl, rfl, rfl, rfl, rfl, rfl, rfl, rfl, rfl⟩

/-! ## The logging stubs -/

/-- C3: for every thread whose cursor is at a `CHAload3D` instruction followed by
three well-formed expressions, `InstCHAload3D` steps past the opcode and
evaluates exactly three expressions in stream order, binding them to
`bufferId`, `unk01` and `modelId` in that order (the arguments of its log
record); on return the cursor is at the first byte after the third
expression and nothing else of the state has changed. -/
theorem InstCHAload3D_consumes_three_expressions (ev : ExpressionEvaluator) (s : VmState)
    (bufferId unk01 modelId : Int) (n1 n2 n3 : Nat)
    (h1 : exprAt ev s (s.thread.Ip + 2) = some (bufferId, n1))
    (h2 : exprAt ev s (s.thread.Ip + 2 + n1) = some (unk01, n2))
    (h3 : exprAt ev s (s.thread.Ip + 2 + n1 + n2) = some (modelId, n3)) :
    InstCHAload3D ev s = some ((),
      { s with
        thread := { s.thread with Ip := s.thread.Ip + 2 + n1 + n2 + n3 }
        log := s.log ++ [⟨LL_Warning, LC_VMStub,
          "STUB instruction CHAload3D(bufferId: %i, unk01: %i, modelId: %i)\n",
          [LogArg.int bufferId, LogArg.int unk01, LogArg.int modelId]⟩] }) := by
  have h : exprsAt ev s 3 (s.thread.Ip + 2) =
      some ([bufferId, unk01, modelId], s.thread.Ip + 2 + n1 + n2 + n3) := by
    simp [exprsAt, h1, h2, h3]
  rw [InstCHAload3D_run ev s _ _ h]
  rfl

/-- C3 at a concrete thread: opcode bytes, then the one-byte expressions 7, 8
and 9, then one more byte that is left unread; the cursor ends at offset 5. -/
theorem InstCHAload3D_consumes_three_expressions_witness :
    InstCHAload3D immediateEval (sampleState [2, 2, 7, 8, 9, 4]) = some ((),
      { sampleState [2, 2, 7, 8, 9, 4] with
        thread := { (sampleState [2, 2, 7, 8, 9, 4]).thread with Ip := 5 }
        log := [⟨LL_Warning, LC_VMStub,
          "STUB instruction CHAload3D(bufferId: %i, unk01: %i, modelId: %i)\n",
          [LogArg.int 7, LogArg.int 8, LogArg.int 9]⟩] }) :=
  InstCHAload3D_consumes_three_expressions immediateEval (sampleState [2, 2, 7, 8, 9, 4])
    7 8 9 1 1 1 (by decide) (by decide) (by decide)

/-- C10: for every thread whose cursor is at a `CHAplayAnim3DMaybe` instruction
(two well-formed expressions, then a byte), `InstCHAplayAnim3DMaybe` steps
past the opcode, evaluates exactly two expressions in stream order
(`bufferId`, then `animationId`) and then reads exactly one raw byte (`unk01`)
at the position reached after the second expression; on return the cursor
is exactly one byte past the end of the second expression. -/
theorem InstCHAplayAnim3DMaybe_consumes_two_expressions_and_a_byte
    (ev : ExpressionEvaluator) (s : VmState) (bufferId animationId : Int) (n1 n2 : Nat)
    (unk01 : Fin 256)
    (h1 : exprAt ev s (s.thread.Ip + 2) = some (bufferId, n1))
    (h2 : exprAt ev s (s.thread.Ip + 2 + n1) = some (animationId, n2))
    (h3 : byteAt s (s.thread.Ip + 2 + n1 + n2) = some unk01) :
    InstCHAplayAnim3DMaybe ev s = some ((),
      { s with
        thread := { s.thread with Ip := s.thread.Ip + 2 + n1 + n2 + 1 }
        log := s.log ++ [⟨LL_Warning, LC_VMStub,
          "STUB instruction CHAplayAnim3DMaybe(bufferId: %i, animationId: %i, unk01: %i)\n",
          [LogArg.int bufferId, LogArg.int animationId, LogArg.int (unk01.val : Int)]⟩] }) := by
  have h : exprsAt ev s 2 (s.thread.Ip + 2) =
      some ([bufferId, animationId], s.thread.Ip + 2 + n1 + n2) := by
    simp [exprsAt, h1, h2]
  rw [InstCHAplayAnim3DMaybe_run ev s _ _ unk01 h h3]
  rfl

/-- C10 at a concrete thread: opcode bytes, the one-byte expressions 7 and 8,
the raw byte 200 and one more byte that is left unread; the cursor ends at
offset 5. -/
theorem InstCHAplayAnim3DMaybe_consumes_two_expressions_and_a_byte_witness :
    InstCHAplayAnim3DMaybe immediateEval (sampleState [2, 6, 7, 8, 200, 4]) = some ((),
      { sampleState [2, 6, 7, 8, 200, 4] with
        thread := { (sampleState [2, 6, 7, 8, 200, 4]).thread with Ip := 5 }
        log := [⟨LL_Warning, LC_VMStub,
          "STUB instruction CHAplayAnim3DMaybe(bufferId: %i, animationId: %i, unk01: %i)\n",
          [LogArg.int 7, LogArg.int 8, LogArg.int 200]⟩] }) :=
  InstCHAplayAnim3DMaybe_consumes_two_expressions_and_a_byte immediateEval
    (sampleState [2, 6, 7, 8, 200, 4]) 7 8 1 1 200 (by decide) (by decide) (by decide)

end Vm

end Impacto
namespace Impacto

open Object3DLoadStatus

/-! ## Scene -/

/-- C4, as stated, fails: the enumeration has no status besides Unloaded, Loading
and Loaded, so there is no fourth, Failed, status. -/
theorem no_failed_load_status :
    ¬ ∃ status : Object3DLoadStatus,
      status ≠ OLS_Unloaded ∧ status ≠ OLS_Loading ∧ status ≠ OLS_Loaded := by
  decide

/-- C4, amended: the load status of a scene resource ranges over exactly three
distinct states, Unloaded, Loading and Loaded; both status fields of every
scene hold one of these three. -/
theorem load_status_has_exactly_three_states :
    (∀ status : Object3DLoadStatus,
      status = OLS_Unloaded ∨ status = OLS_Loading ∨ status = OLS_Loaded) ∧
    OLS_Unloaded ≠ OLS_Loading ∧ OLS_Unloaded ≠ OLS_Loaded ∧ OLS_Loading ≠ OLS_Loaded ∧
    Fintype.card Object3DLoadStatus = 3 ∧
    (∀ (Camera Background3D Character3D Vec3 Vec4 : Type)
        (scene : Scene Camera Background3D Character3D Vec3 Vec4),
      scene.CurrentBackgroundLoadStatus ∈ [OLS_Unloaded, OLS_Loading, OLS_Loaded] ∧
      scene.CurrentCharacterLoadStatus ∈ [OLS_Unloaded, OLS_Loading, OLS_Loaded]) := by
  have h : ∀ status : Object3DLoadStatus,
      status = OLS_Unloaded ∨ status = OLS_Loading ∨ status = OLS_Loaded := by
    intro status
    cases status <;> simp
  refine ⟨h, by decide, by decide, by decide, by decide, ?_⟩
  intro _ _ _ _ _ scene
  constructor
  · simpa using h scene.CurrentBackgroundLoadStatus
  · simpa using h scene.CurrentCharacterLoadStatus

/-- C8: a newly constructed scene has both load statuses Unloaded, and the two
statuses are independent fields: assigning any status to one of them sets that
one and leaves the other status and the two pending ids `BackgroundToLoadId`
and `CharacterToLoadId` unchanged. -/
theorem new_scene_unloaded_and_statuses_independent
    {Camera Background3D Character3D Vec3 Vec4 : Type} :
    (∀ (camera : Camera) (background : Background3D) (character : Character3D)
        (lightPosition : Vec3) (tint : Vec4) (darkMode : Bool)
        (backgroundToLoadId characterToLoadId : Nat),
      (Scene.construct camera background character lightPosition tint darkMode
        backgroundToLoadId characterToLoadId).CurrentBackgroundLoadStatus = OLS_Unloaded ∧
      (Scene.construct camera background character lightPosition tint darkMode
        backgroundToLoadId characterToLoadId).CurrentCharacterLoadStatus = OLS_Unloaded) ∧
    (∀ (scene : Scene Camera Background3D Character3D Vec3 Vec4) (status : Object3DLoadStatus),
      (scene.assignBackgroundLoadStatus status).CurrentBackgroundLoadStatus = status ∧
      (scene.assignBackgroundLoadStatus status).CurrentCharacterLoadStatus =
        scene.CurrentCharacterLoadStatus ∧
      (scene.assignBackgroundLoadStatus status).BackgroundToLoadId = scene.BackgroundToLoadId ∧
      (scene.assignBackgroundLoadStatus status).CharacterToLoadId = scene.CharacterToLoadId) ∧
    (∀ (scene : Scene Camera Background3D Character3D Vec3 Vec4) (status : Object3DLoadStatus),
      (scene.assignCharacterLoadStatus status).CurrentCharacterLoadStatus = status ∧
      (scene.assignCharacterLoadStatus status).CurrentBackgroundLoadStatus =
        scene.CurrentBackgroundLoadStatus ∧
      (scene.assignCharacterLoadStatus status).BackgroundToLoadId = scene.BackgroundToLoadId ∧
      (scene.assignCharacterLoadStatus status).CharacterToLoadId = scene.CharacterToLoadId) :=
  ⟨fun _ _ _ _ _ _ _ _ => ⟨rfl, rfl⟩, fun _ _ => ⟨rfl, rfl, rfl, rfl⟩,
    fun _ _ => ⟨rfl, rfl, rfl, rfl⟩⟩

/-! ## Animation loading -/

namespace Animation

theorem readTracks_length : ∀ (n : Nat) (stream : List Int) (tracks : List BoneTrack)
    (rest : List Int), readTracks n stream = some (tracks, rest) → tracks.length = n := by
  intro n
  induction n with
  | zero =>
    intro stream tracks rest h
    simp [readTracks] at h
    simp [← h.1]
  | succ k ih =>
    intro stream tracks rest h
    simp only [readTracks] at h
    split at h
    · cases h
    · rename_i t rest1 h1
      split at h
      · cases h
      · rename_i ts rest2 h2
        simp at h
        rw [← h.1, List.length_cons, ih _ _ _ h2]

theorem Load_some_inv {maxBones : Nat} {stream : List Int} {id : Nat} {a : Animation}
    (h : Load maxBones stream id = some a) :
    ∃ duration trackCount coordCount quatCount table tracks rest1 coords rest2 quats rest3,
      stream = duration :: trackCount :: coordCount :: quatCount :: table ∧
      0 ≤ trackCount ∧ trackCount ≤ (maxBones : Int) ∧ 0 ≤ coordCount ∧ 0 ≤ quatCount ∧
      readTracks trackCount.toNat table = some (tracks, rest1) ∧
      readCoordKeyframes coordCount.toNat rest1 = some (coords, rest2) ∧
      readQuatKeyframes quatCount.toNat rest2 = some (quats, rest3) ∧
      (∀ t ∈ tracks, t.inBounds coordCount quatCount) ∧
      a = { Id := id, Duration := duration, CoordKeyframeCount := coordCount,
            CoordKeyframes := coords, QuatKeyframeCount := quatCount, QuatKeyframes := quats,
            BoneTrackCount := trackCount, BoneTracks := tracks } := by
  unfold Load at h
  split at h
  · rename_i duration trackCount coordCount quatCount table
    split at h
    · rename_i hc
      split at h
      · cases h
      · rename_i tracks rest1 h1
        split at h
        · cases h
        · rename_i coords rest2 h2
          split at h
          · cases h
          · rename_i quats rest3 h3
            split at h
            · rename_i hb
              simp at h
              exact ⟨duration, trackCount, coordCount, quatCount, table, tracks, rest1, coords,
                rest2, quats, rest3, rfl, hc.1, hc.2.1, hc.2.2.1, hc.2.2.2, h1, h2, h3, hb, h.symm⟩
            · cases h
    · cases h
  · cases h

/-- C9: for every input stream, `Animation::Load` either fails fatally or returns
an animation whose `BoneTrackCount` is at most `ModelMaxBonesPerModel` and
whose first `BoneTrackCount` tracks have every scalar channel inside the
coordinate keyframes (0 <= offset, offset + count <= `CoordKeyframeCount`) and
the rotation channel inside the quaternion keyframes; the loaded tracks are
the ones the stream names, so a stream naming an out-of-bounds range is
rejected and never loaded with a truncated range; the scenario stream (2
tracks, coordinate ranges [0,3) and [3,5), quaternion ranges [0,2) and [2,2))
loads with `BoneTrackCount` = 2. -/
theorem Load_keeps_tracks_in_bounds (ModelMaxBonesPerModel : Nat) (stream : List Int)
    (id : Nat) :
    (∀ a, Load ModelMaxBonesPerModel stream id = some a →
      0 ≤ a.BoneTrackCount ∧ a.BoneTrackCount ≤ (ModelMaxBonesPerModel : Int) ∧
      (a.BoneTracks.length : Int) = a.BoneTrackCount ∧
      (∀ t ∈ a.BoneTracks, t.inBounds a.CoordKeyframeCount a.QuatKeyframeCount) ∧
      namedTracks stream = some (a.BoneTracks, a.CoordKeyframeCount, a.QuatKeyframeCount)) ∧
    (∀ tracks coordCount quatCount,
      namedTracks stream = some (tracks, coordCount, quatCount) →
      (∃ t ∈ tracks, ¬ t.inBounds coordCount quatCount) →
      Load ModelMaxBonesPerModel stream id = none) ∧
    (2 ≤ ModelMaxBonesPerModel →
      ∃ a, Load ModelMaxBonesPerModel scenarioStream id = some a ∧ a.BoneTrackCount = 2) := by
  have key : ∀ a, Load ModelMaxBonesPerModel stream id = some a →
      0 ≤ a.BoneTrackCount ∧ a.BoneTrackCount ≤ (ModelMaxBonesPerModel : Int) ∧
      (a.BoneTracks.length : Int) = a.BoneTrackCount ∧
      (∀ t ∈ a.BoneTracks, t.inBounds a.CoordKeyframeCount a.QuatKeyframeCount) ∧
      namedTracks stream = some (a.BoneTracks, a.CoordKeyframeCount, a.QuatKeyframeCount) := by
    intro a h
    obtain ⟨duration, trackCount, coordCount, quatCount, table, tracks, rest1, coords, rest2,
      quats, rest3, rfl, h0, hmax, _, _, h1, _, _, hb, rfl⟩ := Load_some_inv h
    refine ⟨h0, hmax, ?_, hb, ?_⟩
    · show (tracks.length : Int) = trackCount
      rw [readTracks_length _ _ _ _ h1]
      exact Int.toNat_of_nonneg h0
    · simp [namedTracks, h1]
  refine ⟨key, ?_, ?_⟩
  · intro tracks coordCount quatCount hn ⟨t, ht, hbad⟩
    cases hl : Load ModelMaxBonesPerModel stream id with
    | none => rfl
    | some a =>
      obtain ⟨_, _, _, hb, hn2⟩ := key a hl
      rw [hn] at hn2
      simp at hn2
      obtain ⟨rfl, rfl, rfl⟩ := hn2
      exact absurd (hb t ht) hbad
  · intro h2
    have hm : (2 : Int) ≤ (ModelMaxBonesPerModel : Int) := by exact_mod_cast h2
    have hrun : (Load ModelMaxBonesPerModel scenarioStream id).map
        (fun a => a.BoneTrackCount) = some 2 := by
      simp [Load, scenarioStream, trackFields, hm, readTracks, readTrack, readCount,
        readCoordKeyframes, readQuatKeyframes, BoneTrack.inBounds, rangeInBounds]
    cases hl : Load ModelMaxBonesPerModel scenarioStream id with
    | none => simp [hl] at hrun
    | some a => exact ⟨a, rfl, by simpa [hl] using hrun⟩

/-- C9 at concrete streams, with a table of 32 bones: the scenario stream loads
with two tracks, both in bounds; the same stream with the second track's
scalar ranges moved to [4,6), past the 5 coordinate keyframes, is rejected. -/
theorem Load_keeps_tracks_in_bounds_witness :
    (∃ a, Load 32 scenarioStream 7 = some a ∧ a.BoneTrackCount = 2 ∧
      (∀ t ∈ a.BoneTracks, t.inBounds a.CoordKeyframeCount a.QuatKeyframeCount)) ∧
    Load 32 outOfBoundsStream 7 = none := by
  constructor
  · obtain ⟨a, ha, h2⟩ := (Load_keeps_tracks_in_bounds 32 scenarioStream 7).2.2 (by decide)
    exact ⟨a, ha, h2, ((Load_keeps_tracks_in_bounds 32 scenarioStream 7).1 a ha).2.2.2.1⟩
  · exact (Load_keeps_tracks_in_bounds 32 outOfBoundsStream 7).2.1
      [trackOf 0 0 3 0 2, trackOf 1 4 2 2 0] 5 2 (by decide) (by decide)

end Animation

/-! ## Profile accessors -/

namespace Profile

open LogLevel LogChannel JsonType

theorem lookup_eq_none_iff_not_mem_keys {α : Type} (registry : Registry α) (key : String) :
    registry.lookup key = none ↔ key ∉ registry.keys := by
  induction registry with
  | nil => simp [Registry.keys]
  | cons p rest ih =>
    obtain ⟨k, v⟩ := p
    by_cases hk : key = k
    · subst hk
      simp [List.lookup, Registry.keys]
    · have hb : (key == k) = false := by simpa using hk
      simp only [List.lookup, hb, Registry.keys, List.map_cons, List.mem_cons, not_or]
      simp only [Registry.keys] at ih
      rw [ih]
      simp [hk]

theorem EnsureGetMember_found {val : Value} {member : String} {v : Value} (path : String)
    (st : ProcessState) (h : val.FindMember member = some (some v)) :
    EnsureGetMember val path member st = some (v, st) := by
  simp [EnsureGetMember, TryGetMember, h, pure, bind, ProfileM.bind, ProfileM.ofOption]

theorem EnsureGetMember_absent {val : Value} {member : String} (path : String)
    (st : ProcessState) (h : val.FindMember member = some none) :
    EnsureGetMember val path member st =
      some (GlobalNull,
        { log := st.log ++ [⟨LL_Fatal, LC_Profile, "Expected %s to have member %s\n",
            [LogArg.str path, LogArg.str member]⟩],
          shutdownCalls := st.shutdownCalls + 1 }) := by
  simp [EnsureGetMember, TryGetMember, h, pure, bind, ProfileM.bind, ProfileM.ofOption, ImpLog,
    Window.Shutdown]

theorem FindMember_of_object {val : Value} (h : val.IsObject = true) (member : String) :
    ∃ found, val.FindMember member = some found := by
  cases val <;> simp [Value.IsObject] at h
  exact ⟨_, rfl⟩

/-- C5, as stated, fails on a value that is not an object: on the JSON number 1
`EnsureGetMemberOfType` reaches `FindMember`, whose precondition `IsObject` does
not hold, and does not return; it neither logs, nor invokes
`Window::Shutdown`, nor returns `GlobalNull`. -/
theorem EnsureGetMemberOfType_needs_an_object :
    (Value.number (JsonNumber.int 1)).IsObject = false ∧
    EnsureGetMemberOfType (Value.number (JsonNumber.int 1)) "Profile" "Width" kNumberType
      freshProcess = none :=
  ⟨rfl, rfl⟩

/-- C5, amended: for every JSON object, member name and expected type,
`EnsureGetMemberOfType` returns, and it returns without invoking
`Window::Shutdown` if and only if the object has a member with that name whose
JSON type equals the expected type; in that case it returns that member's
value and changes nothing; in every other case it emits only fatal log records
(at least one), invokes `Window::Shutdown` at least once and returns the null
value `GlobalNull`. -/
theorem EnsureGetMemberOfType_shutdown_iff_mismatch (val : Value) (path member : String)
    (type : JsonType) (st : ProcessState) (hobj : val.IsObject = true) :
    ∃ r, EnsureGetMemberOfType val path member type st = some r ∧
      (r.2.shutdownCalls = st.shutdownCalls ↔
        ∃ v, val.FindMember member = some (some v) ∧ v.GetType = type) ∧
      (∀ v, val.FindMember member = some (some v) → v.GetType = type → r = (v, st)) ∧
      ((¬ ∃ v, val.FindMember member = some (some v) ∧ v.GetType = type) →
        r.1 = GlobalNull ∧
        st.shutdownCalls + 1 ≤ r.2.shutdownCalls ∧
        ∃ records, records ≠ [] ∧ (∀ x ∈ records, x.level = LL_Fatal) ∧
          r.2.log = st.log ++ records) := by
  obtain ⟨found, hf⟩ := FindMember_of_object hobj member
  cases found with
  | none =>
    by_cases ht : GlobalNull.GetType = type
    · have hrun : EnsureGetMemberOfType val path member type st =
          some (GlobalNull,
            { log := st.log ++ [⟨LL_Fatal, LC_Profile, "Expected %s to have member %s\n",
                [LogArg.str path, LogArg.str member]⟩],
              shutdownCalls := st.shutdownCalls + 1 }) := by
        simp only [EnsureGetMemberOfType, bind, ProfileM.bind,
          EnsureGetMember_absent path st hf, ht, if_true, pure]
      refine ⟨_, hrun, ?_⟩
      simp [hf]
    · have hrun : EnsureGetMemberOfType val path member type st =
          some (GlobalNull,
            { log := st.log ++ [⟨LL_Fatal, LC_Profile, "Expected %s to have member %s\n",
                [LogArg.str path, LogArg.str member]⟩] ++
                [⟨LL_Fatal, LC_Profile, "Expected %s/%s to have type %s, actual type %s\n",
                  [LogArg.str path, LogArg.str member, LogArg.str (typeName type),
                   LogArg.str (typeName GlobalNull.GetType)]⟩],
              shutdownCalls := st.shutdownCalls + 1 + 1 }) := by
        simp [EnsureGetMemberOfType, bind, ProfileM.bind,
          EnsureGetMember_absent path st hf, ht, pure, ImpLog, Window.Shutdown]
      refine ⟨_, hrun, ?_⟩
      simp [hf]
      omega
  | some v =>
    by_cases ht : v.GetType = type
    · have hrun : EnsureGetMemberOfType val path member type st = some (v, st) := by
        simp only [EnsureGetMemberOfType, bind, ProfileM.bind,
          EnsureGetMember_found path st hf, ht, if_true, pure]
      refine ⟨_, hrun, ?_⟩
      simp [hf, ht]
    · have hrun : EnsureGetMemberOfType val path member type st =
          some (GlobalNull,
            { log := st.log ++
                [⟨LL_Fatal, LC_Profile, "Expected %s/%s to have type %s, actual type %s\n",
                  [LogArg.str path, LogArg.str member, LogArg.str (typeName type),
                   LogArg.str (typeName v.GetType)]⟩],
              shutdownCalls := st.shutdownCalls + 1 }) := by
        simp [EnsureGetMemberOfType, bind, ProfileM.bind,
          EnsureGetMember_found path st hf, ht, pure, ImpLog, Window.Shutdown]
      refine ⟨_, hrun, ?_⟩
      simp [hf, ht]

/-- C5, amended, at concrete inputs: the member `BoxWidth` of the sample profile
is a number and is returned untouched; asked for as a string it is refused
with a shutdown and `GlobalNull`, and so is a member that does not exist. -/
theorem EnsureGetMemberOfType_shutdown_iff_mismatch_witness :
    EnsureGetMemberOfType RNE.SysMesBox.sampleProfile "SysMesBox" "BoxWidth" kNumberType
        freshProcess = some (Value.number (JsonNumber.int 25), freshProcess) ∧
    (∃ r, EnsureGetMemberOfType RNE.SysMesBox.sampleProfile "SysMesBox" "BoxWidth" kStringType
        freshProcess = some r ∧ r.1 = GlobalNull ∧ 1 ≤ r.2.shutdownCalls) ∧
    (∃ r, EnsureGetMemberOfType RNE.SysMesBox.sampleProfile "SysMesBox" "NoSuchKey" kStringType
        freshProcess = some r ∧ r.1 = GlobalNull ∧ 1 ≤ r.2.shutdownCalls) := by
  refine ⟨?_, ?_, ?_⟩
  · obtain ⟨r, hr, _, hval, _⟩ := EnsureGetMemberOfType_shutdown_iff_mismatch
      RNE.SysMesBox.sampleProfile "SysMesBox" "BoxWidth" kNumberType freshProcess rfl
    rw [hr, hval (Value.number (JsonNumber.int 25)) rfl rfl]
  · obtain ⟨r, hr, _, _, hbad⟩ := EnsureGetMemberOfType_shutdown_iff_mismatch
      RNE.SysMesBox.sampleProfile "SysMesBox" "BoxWidth" kStringType freshProcess rfl
    have h := hbad (by
      rintro ⟨v, hv, ht⟩
      have hv2 : RNE.SysMesBox.sampleProfile.FindMember "BoxWidth" =
          some (some (Value.number (JsonNumber.int 25))) := rfl
      rw [hv2] at hv
      cases hv
      cases ht)
    exact ⟨r, hr, h.1, by simpa [freshProcess] using h.2.1⟩
  · obtain ⟨r, hr, _, _, hbad⟩ := EnsureGetMemberOfType_shutdown_iff_mismatch
      RNE.SysMesBox.sampleProfile "SysMesBox" "NoSuchKey" kStringType freshProcess rfl
    have h := hbad (by
      rintro ⟨v, hv, _⟩
      have hv2 : RNE.SysMesBox.sampleProfile.FindMember "NoSuchKey" = some none := rfl
      rw [hv2] at hv
      cases hv)
    exact ⟨r, hr, h.1, by simpa [freshProcess] using h.2.1⟩

theorem TryGetString_registry {α : Type} (registry : Registry α) (val : Value) (out : α)
    (f : Value → α → Bool × α)
    (hf : ∀ v o, f v o =
      (if !(TryGetString v "").1 then (false, o)
       else match registry.lookup (TryGetString v "").2 with
         | none => (false, o)
         | some x => (true, x))) :
    ((f val out).1 = true ↔ ∃ text, val = Value.string text ∧ text ∈ registry.keys) ∧
    ((f val out).1 = true →
        ∃ text, val = Value.string text ∧ registry.lookup text = some (f val out).2) ∧
    ((f val out).1 = false → (f val out).2 = out) := by
  rw [hf]
  cases val with
  | string text =>
    cases hl : registry.lookup text with
    | none =>
      have hk := (lookup_eq_none_iff_not_mem_keys registry text).1 hl
      simp [TryGetString, hl, hk]
    | some x =>
      have hk : text ∈ registry.keys := by
        by_contra hc
        rw [(lookup_eq_none_iff_not_mem_keys registry text).2 hc] at hl
        cases hl
      simp [TryGetString, hl, hk]
  | _ => simp [TryGetString]

/-- C6: for every JSON value and every content of the `Sprites` registry,
`TryGetSprite` returns true if and only if the value is a JSON string whose
text is a key of the registry; when it returns true, `out` is the sprite
registered under that key, and when it returns false, `out` is unchanged.
`TryGetFont` and `TryGetAnimation` satisfy the same statement for the `Fonts`
and `Animations` registries. -/
theorem TryGet_registry_lookup {Sprite Font SpriteAnimationDef : Type}
    (Sprites : Registry Sprite) (Fonts : Registry Font)
    (Animations : Registry SpriteAnimationDef) (val : Value) :
    (∀ out : Sprite,
      ((TryGetSprite Sprites val out).1 = true ↔
        ∃ text, val = Value.string text ∧ text ∈ Sprites.keys) ∧
      ((TryGetSprite Sprites val out).1 = true →
        ∃ text, val = Value.string text ∧
          Sprites.lookup text = some (TryGetSprite Sprites val out).2) ∧
      ((TryGetSprite Sprites val out).1 = false → (TryGetSprite Sprites val out).2 = out)) ∧
    (∀ out : Font,
      ((TryGetFont Fonts val out).1 = true ↔
        ∃ text, val = Value.string text ∧ text ∈ Fonts.keys) ∧
      ((TryGetFont Fonts val out).1 = true →
        ∃ text, val = Value.string text ∧
          Fonts.lookup text = some (TryGetFont Fonts val out).2) ∧
      ((TryGetFont Fonts val out).1 = false → (TryGetFont Fonts val out).2 = out)) ∧
    (∀ out : SpriteAnimationDef,
      ((TryGetAnimation Animations val out).1 = true ↔
        ∃ text, val = Value.string text ∧ text ∈ Animations.keys) ∧
      ((TryGetAnimation Animations val out).1 = true →
        ∃ text, val = Value.string text ∧
          Animations.lookup text = some (TryGetAnimation Animations val out).2) ∧
      ((TryGetAnimation Animations val out).1 = false →
        (TryGetAnimation Animations val out).2 = out)) :=
  ⟨fun out => TryGetString_registry Sprites val out (TryGetSprite Sprites) (fun _ _ => rfl),
   fun out => TryGetString_registry Fonts val out (TryGetFont Fonts) (fun _ _ => rfl),
   fun out => TryGetString_registry Animations val out (TryGetAnimation Animations)
     (fun _ _ => rfl)⟩

/-- C6 at concrete inputs: in the sample registry the string `sysmes_label`
resolves to sprite 4, and the unregistered name `missing` leaves `out` (here
99) as it was. -/
theorem TryGet_registry_lookup_witness :
    (∃ text, Value.string "sysmes_label" = Value.string text ∧
      sampleSprites.lookup text =
        some (TryGetSprite sampleSprites (Value.string "sysmes_label") 99).2) ∧
    (TryGetSprite sampleSprites (Value.string "sysmes_label") 99).2 = 4 ∧
    (TryGetSprite sampleSprites (Value.string "missing") 99).2 = 99 :=
  ⟨((TryGet_registry_lookup sampleSprites sampleSprites sampleSprites
      (Value.string "sysmes_label")).1 99).2.1 (by decide),
   by decide,
   ((TryGet_registry_lookup sampleSprites sampleSprites sampleSprites
      (Value.string "missing")).1 99).2.2 (by decide)⟩

theorem EnsureGetMemberSprite_ok {Sprite : Type} [Inhabited Sprite] {Sprites : Registry Sprite}
    {val : Value} {key : String} {x : Sprite} (path : String) (st : ProcessState)
    (h : RNE.SysMesBox.profileSprite Sprites val key = some x) :
    EnsureGetMemberSprite Sprites val path key st = some (x, st) := by
  unfold RNE.SysMesBox.profileSprite at h
  split at h
  · rename_i name hf
    simp [EnsureGetMemberSprite, TryGetMemberSprite, TryGetMember, hf, TryGetSprite, TryGetString,
      bind, ProfileM.bind, ProfileM.ofOption, h, pure]
  · cases h

theorem EnsureGetMemberFloat_ok {F : Type} {fp : FloatOps F}
    {val : Value} {key : String} {x : F} (path : String) (st : ProcessState)
    (h : RNE.SysMesBox.profileFloat fp val key = some x) :
    EnsureGetMemberFloat fp val path key st = some (x, st) := by
  unfold RNE.SysMesBox.profileFloat at h
  split at h
  · rename_i n hf
    simp at h
    simp [EnsureGetMemberFloat, TryGetMemberFloat, hf, TryGetFloat, h, pure, bind, ProfileM.bind,
      ProfileM.ofOption]
  · rename_i text hf
    simp at h
    simp [EnsureGetMemberFloat, TryGetMemberFloat, hf, TryGetFloat, SDL_strtod, h, pure, bind,
      ProfileM.bind, ProfileM.ofOption]
  · cases h

namespace RNE

namespace SysMesBox

/-- C7: `Configure`, run on a profile in which every key it reads is present and
well typed (`sp` and `fl` give the sprite and the float the profile holds
under each key), sets each of the six sprite globals and each of the 23 float
globals from `LinePositionXFirst` to `MessageLabelSpriteMultiplier` to the
profile member whose key is spelled like the variable, and writes nothing
else: the other eight floats of the namespace (`TextFontSize`, `TextMiddleY`,
`TextX`, `TextLineHeight`, `TextMarginY`, `AnimationSpeed`, `FadeInDuration`,
`FadeOutDuration`) keep their values, and nothing is logged or shut down. -/
theorem Configure_sets_listed_globals_only {Sprite F : Type} [Inhabited Sprite]
    (fp : FloatOps F) (Sprites : Registry Sprite) (val : Value) (path : String)
    (g : Globals Sprite F) (st : ProcessState) (sp : String → Sprite) (fl : String → F)
    (hs : ∀ key ∈ spriteKeys, profileSprite Sprites val key = some (sp key))
    (hf : ∀ key ∈ floatKeys, profileFloat fp val key = some (fl key)) :
    Configure fp Sprites val path g st =
      some ({ g with
        BoxDecorationTop := sp "BoxDecorationTop"
        BoxDecorationBottom := sp "BoxDecorationBottom"
        TextDecoration := sp "TextDecoration"
        MessageLabel := sp "MessageLabel"
        Line1 := sp "Line1"
        Line2 := sp "Line2"
        LinePositionXFirst := fl "LinePositionXFirst"
        LinePositionX := fl "LinePositionX"
        LinePositionMultiplier := fl "LinePositionMultiplier"
        LineWidthFirst := fl "LineWidthFirst"
        LineWidthBase := fl "LineWidthBase"
        LineWidthMultiplier := fl "LineWidthMultiplier"
        Line1SpriteY := fl "Line1SpriteY"
        Line2SpriteY := fl "Line2SpriteY"
        LineSpriteHeight := fl "LineSpriteHeight"
        LineDisplayXBase := fl "LineDisplayXBase"
        Line1DisplayY := fl "Line1DisplayY"
        Line2DisplayY := fl "Line2DisplayY"
        BoxDisplayStartCount := fl "BoxDisplayStartCount"
        BoxHeightBase := fl "BoxHeightBase"
        BoxHeightMultiplier := fl "BoxHeightMultiplier"
        BoxWidth := fl "BoxWidth"
        BoxTextFontSize := fl "BoxTextFontSize"
        BoxTopYBase := fl "BoxTopYBase"
        BoxDisplayX := fl "BoxDisplayX"
        MessageLabelSpriteXBase := fl "MessageLabelSpriteXBase"
        MessageLabelSpriteY := fl "MessageLabelSpriteY"
        MessageLabelSpriteHeight := fl "MessageLabelSpriteHeight"
        MessageLabelSpriteMultiplier := fl "MessageLabelSpriteMultiplier" }, st) := by
  have hS : ∀ key ∈ spriteKeys, ∀ st1,
      EnsureGetMemberSprite Sprites val path key st1 = some (sp key, st1) :=
    fun key hk st1 => EnsureGetMemberSprite_ok path st1 (hs key hk)
  have hF : ∀ key ∈ floatKeys, ∀ st1,
      EnsureGetMemberFloat fp val path key st1 = some (fl key, st1) :=
    fun key hk st1 => EnsureGetMemberFloat_ok path st1 (hf key hk)
  simp only [Configure, bind, ProfileM.bind, pure,
    hS "BoxDecorationTop" (by decide),
    hS "BoxDecorationBottom" (by decide),
    hS "TextDecoration" (by decide),
    hS "MessageLabel" (by decide),
    hS "Line1" (by decide),
    hS "Line2" (by decide),
    hF "LinePositionXFirst" (by decide),
    hF "LinePositionX" (by decide),
    hF "LinePositionMultiplier" (by decide),
    hF "LineWidthFirst" (by decide),
    hF "LineWidthBase" (by decide),
    hF "LineWidthMultiplier" (by decide),
    hF "Line1SpriteY" (by decide),
    hF "Line2SpriteY" (by decide),
    hF "LineSpriteHeight" (by decide),
    hF "LineDisplayXBase" (by decide),
    hF "Line1DisplayY" (by decide),
    hF "Line2DisplayY" (by decide),
    hF "BoxDisplayStartCount" (by decide),
    hF "BoxHeightBase" (by decide),
    hF "BoxHeightMultiplier" (by decide),
    hF "BoxWidth" (by decide),
    hF "BoxTextFontSize" (by decide),
    hF "BoxTopYBase" (by decide),
    hF "BoxDisplayX" (by decide),
    hF "MessageLabelSpriteXBase" (by decide),
    hF "MessageLabelSpriteY" (by decide),
    hF "MessageLabelSpriteHeight" (by decide),
    hF "MessageLabelSpriteMultiplier" (by decide)]

/-- C7 at a concrete profile: every listed global takes the value the sample
profile holds under its name, the other eight floats keep the values 300 to
307 they had, and the process state is untouched. -/
theorem Configure_sets_listed_globals_only_witness :
    Configure sampleFloatOps sampleSprites sampleProfile "SysMesBox" sampleGlobals
         freshProcess =
      some ({ BoxDecorationTop := 1
              BoxDecorationBottom := 2
              TextDecoration := 3
              MessageLabel := 4
              Line1 := 5
              Line2 := 6
              LinePositionXFirst := 10
              LinePositionX := 11
              LinePositionMultiplier := 12
              LineWidthFirst := 13
              LineWidthBase := 14
              LineWidthMultiplier := 15
              Line1SpriteY := 16
              Line2SpriteY := 17
              LineSpriteHeight := 18
              LineDisplayXBase := 19
              Line1DisplayY := 20
              Line2DisplayY := 21
              BoxDisplayStartCount := 22
              BoxHeightBase := 23
              BoxHeightMultiplier := 24
              BoxWidth := 25
              BoxTextFontSize := 26
              BoxTopYBase := 27
              BoxDisplayX := 28
              MessageLabelSpriteXBase := 29
              MessageLabelSpriteY := 30
              MessageLabelSpriteHeight := 31
              MessageLabelSpriteMultiplier := 32
              TextFontSize := 300
              TextMiddleY := 301
              TextX := 302
              TextLineHeight := 303
              TextMarginY := 304
              AnimationSpeed := 305
              FadeInDuration := 306
              FadeOutDuration := 307 }, freshProcess) :=
  Configure_sets_listed_globals_only sampleFloatOps sampleSprites sampleProfile "SysMesBox"
    sampleGlobals freshProcess
    (fun key => (profileSprite sampleSprites sampleProfile key).getD 0)
    (fun key => (profileFloat sampleFloatOps sampleProfile key).getD 0)
    (by decide) (by decide)

end SysMesBox

end RNE

end Profile

end Impacto
namespace Impacto

namespace Profile

open LogLevel LogChannel JsonType

/-! ## The text of `typeList` -/

theorem typeListStep_fold_length (types : List JsonType) :
    ∀ text : String, ((types.foldl typeListStep (text, false)).1).length =
      text.length + (types.map (fun t => (typeName t).length + 2)).sum := by
  induction types with
  | nil =>
    intro text
    simp
  | cons t ts ih =>
    intro text
    simp only [List.foldl_cons, List.map_cons, List.sum_cons]
    have hstep : typeListStep (text, false) t = (text ++ ", " ++ typeName t, false) := by
      simp [typeListStep]
    rw [hstep, ih]
    simp only [String.length_append]
    have : (", " : String).length = 2 := by decide
    omega

theorem buildTypeList_length_cons (t : JsonType) (ts : List JsonType) :
    (buildTypeList (t :: ts)).length + 2 =
      ((t :: ts).map (fun t => (typeName t).length + 2)).sum := by
  have hstep : typeListStep ("", true) t = ("" ++ typeName t, false) := by
    simp [typeListStep]
  simp only [buildTypeList, List.foldl_cons, hstep, typeListStep_fold_length, List.map_cons,
    List.sum_cons, String.length_append]
  have : ("" : String).length = 0 := by decide
  omega

theorem nodup_names_sum_le (types : List JsonType) (h : types.Nodup) :
    (types.map (fun t => (typeName t).length + 2)).sum ≤ 50 := by
  have h1 : (types.map (fun t => (typeName t).length + 2)).sum =
      types.toFinset.sum (fun t => (typeName t).length + 2) :=
    (List.sum_toFinset _ h).symm
  have h2 : types.toFinset.sum (fun t => (typeName t).length + 2) ≤
      Finset.univ.sum (fun t : JsonType => (typeName t).length + 2) :=
    Finset.sum_le_sum_of_subset (Finset.subset_univ _)
  have h3 : Finset.univ.sum (fun t : JsonType => (typeName t).length + 2) = 50 := by decide
  omega

theorem buildTypeList_length_le (types : List JsonType) (h : types.Nodup) :
    (buildTypeList types).length ≤ 48 := by
  cases types with
  | nil => decide
  | cons t ts =>
    have h1 := buildTypeList_length_cons t ts
    have h2 := nodup_names_sum_le (t :: ts) h
    omega

/-- C12: for every list of pairwise distinct JSON types, the text that
`AssertIsOneOf` and `EnsureGetMemberOfTypes` build by joining the type names
with ", " (the text both log on a mismatch) has at most 48 characters, so with
its terminating zero byte it fits the 80-byte `typeList` buffer; the list of
all seven types reaches 48. -/
theorem typeList_fits_buffer (types : List JsonType) (h : types.Nodup) :
    (buildTypeList types).length ≤ 48 ∧
    (buildTypeList types).length + 1 ≤ typeListSize ∧
    (buildTypeList [kNullType, kFalseType, kTrueType, kObjectType, kArrayType, kStringType,
      kNumberType]).length = 48 ∧
    (∀ (val : Value) (path : String) (st : ProcessState), val.GetType ∉ types →
      ∃ r, AssertIsOneOf val path types st = some r ∧ r.2.log = st.log ++
        [⟨LL_Fatal, LC_Profile, "Expected %s to have type in (%s), actual type %s\n",
          [LogArg.str path, LogArg.str (buildTypeList types),
           LogArg.str (typeName val.GetType)]⟩]) ∧
    (∀ (val v : Value) (path member : String) (st : ProcessState),
      val.FindMember member = some (some v) → v.GetType ∉ types →
      ∃ r, EnsureGetMemberOfTypes val path member types st = some r ∧ r.2.log = st.log ++
        [⟨LL_Fatal, LC_Profile, "Expected %s/%s to have type in (%s), actual type %s\n",
          [LogArg.str path, LogArg.str member, LogArg.str (buildTypeList types),
           LogArg.str (typeName v.GetType)]⟩]) := by
  have hlen := buildTypeList_length_le types h
  refine ⟨hlen, ?_, by decide, ?_, ?_⟩
  · simp only [typeListSize]
    omega
  · intro val path st hmem
    simp [AssertIsOneOf, hmem, bind, ProfileM.bind, pure, ImpLog, Window.Shutdown]
  · intro val v path member st hfind hmem
    simp [EnsureGetMemberOfTypes, EnsureGetMember, TryGetMember, hfind, hmem, bind,
      ProfileM.bind, ProfileM.ofOption, pure, ImpLog, Window.Shutdown]

/-- C12 at a concrete list: for String and Number the text is "String, Number",
14 characters. -/
theorem typeList_fits_buffer_witness :
    buildTypeList [kStringType, kNumberType] = "String, Number" ∧
    (buildTypeList [kStringType, kNumberType]).length ≤ 48 ∧
    (buildTypeList [kStringType, kNumberType]).length + 1 ≤ typeListSize :=
  ⟨by decide, (typeList_fits_buffer [kStringType, kNumberType] (by decide)).1,
    (typeList_fits_buffer [kStringType, kNumberType] (by decide)).2.1⟩

/-! ## Integer accessors -/

theorem TryGetInt_string (ops : IntegerOps) (text : String) (out : Int) :
    TryGetInt ops (Value.string text) out = (true, (ops.strtol text).1) := by
  simp [TryGetInt, Value.IsInt, Value.IsString, Value.GetString, SDL_strtol]

theorem TryGetUint_string (ops : IntegerOps) (text : String) (out : Nat) :
    TryGetUint ops (Value.string text) out = (true, (ops.strtoul text).1) := by
  simp [TryGetUint, Value.IsUint, Value.IsString, Value.GetString, SDL_strtoul]

theorem narrowToInt_of_fits (v : Int) (h1 : -2147483648 ≤ v) (h2 : v ≤ 2147483647) :
    narrowToInt v = v := by
  unfold narrowToInt
  omega

theorem strtolResult_of_fits (text : String) (h1 : -2147483648 ≤ subjectValue text)
    (h2 : subjectValue text ≤ 2147483647) : strtolResult text = subjectValue text := by
  unfold strtolResult LONG_MIN LONG_MAX
  split
  · omega
  · split
    · omega
    · rfl

theorem subjectValue_eq_decimalPrefixValue (text : String) (h : startsPlain text = true) :
    subjectValue text = decimalPrefixValue text := by
  unfold startsPlain at h
  unfold subjectValue subjectSequence decimalPrefixValue
  cases hd : text.data with
  | nil => simp [digitsValue]
  | cons c rest =>
    rw [hd] at h
    simp only [Bool.and_eq_true, Bool.not_eq_true', bne_iff_ne, ne_eq] at h
    obtain ⟨hsp, hplus⟩ := h
    have hdrop : List.dropWhile isCSpace (c :: rest) = c :: rest := by
      simp [List.dropWhile, hsp]
    rw [hdrop]
    by_cases hm : c = '-'
    · subst hm
      simp
    · split <;> simp_all

theorem TryGetInt_libc_of_fits (text : String) (out : Int)
    (h1 : -2147483648 ≤ subjectValue text) (h2 : subjectValue text ≤ 2147483647) :
    TryGetInt libcIntegerOps (Value.string text) out = (true, subjectValue text) := by
  rw [TryGetInt_string]
  show (true, narrowToInt (strtolResult text)) = (true, subjectValue text)
  rw [strtolResult_of_fits text h1 h2, narrowToInt_of_fits _ h1 h2]

/-- C11, as stated, fails: the text "99999999999" is accepted, but `out` becomes
1215752191, not the value 99999999999 of its decimal-integer prefix, which no
32-bit `int` holds; the texts " 42" and "+7", which do not begin with a
decimal integer, give 42 and 7, not 0; and the JSON number 3.0, which is
representable as a 32-bit signed int but is held as a double, is refused. -/
theorem TryGetInt_string_value_differs_from_prefix_value :
    (TryGetInt libcIntegerOps (Value.string "99999999999") 0 = (true, 1215752191) ∧
      decimalPrefixValue "99999999999" = 99999999999) ∧
    (TryGetInt libcIntegerOps (Value.string " 42") 0 = (true, 42) ∧
      decimalPrefixValue " 42" = 0) ∧
    (TryGetInt libcIntegerOps (Value.string "+7") 0 = (true, 7) ∧
      decimalPrefixValue "+7" = 0) ∧
    TryGetInt libcIntegerOps (Value.number (JsonNumber.real 3)) 5 = (false, 5) := by
  decide

/-- C11, amended: `TryGetInt` returns true if and only if the value is a JSON
number that is held as an integer in the 32-bit signed range (`IsInt`) or is a
JSON string. On a string it never fails, whatever the text, because the end
pointer of the base-10 conversion is never null, and `out` is the value that
conversion yields narrowed to `int`: the number denoted by the text's subject
(after leading white space, an optional sign and the longest run of decimal
digits) whenever that number fits a 32-bit signed int, which for a text that
begins with neither white space nor a plus sign is the value of its longest
leading decimal-integer prefix, and 0 when the subject has no digit. When it
returns false, `out` is unchanged. `TryGetUint` accepts every JSON string in
the same way. -/
theorem TryGetInt_accepts_every_string (ops : IntegerOps) (val : Value) (out : Int)
    (outUint : Nat) :
    ((TryGetInt ops val out).1 = true ↔ val.IsInt = true ∨ val.IsString = true) ∧
    (val.IsInt = true → TryGetInt ops val out = (true, val.GetInt)) ∧
    (∀ text, val = Value.string text →
      TryGetInt ops val out = (true, (ops.strtol text).1)) ∧
    (∀ text, val = Value.string text →
      -2147483648 ≤ subjectValue text → subjectValue text ≤ 2147483647 →
      TryGetInt libcIntegerOps val out = (true, subjectValue text)) ∧
    (∀ text, val = Value.string text → startsPlain text = true →
      -2147483648 ≤ decimalPrefixValue text → decimalPrefixValue text ≤ 2147483647 →
      TryGetInt libcIntegerOps val out = (true, decimalPrefixValue text)) ∧
    (∀ text, val = Value.string text → (subjectSequence text).2 = [] →
      TryGetInt libcIntegerOps val out = (true, 0)) ∧
    ((TryGetInt ops val out).1 = false → (TryGetInt ops val out).2 = out) ∧
    (∀ text, val = Value.string text →
      TryGetUint ops val outUint = (true, (ops.strtoul text).1)) := by
  refine ⟨?_, ?_, ?_, ?_, ?_, ?_, ?_, ?_⟩
  · cases val with
    | number n => cases h : n.IsInt <;> simp [TryGetInt, Value.IsInt, Value.IsString, h]
    | _ => simp [TryGetInt, Value.IsInt, Value.IsString, SDL_strtol]
  · intro h
    simp [TryGetInt, h]
  · rintro text rfl
    exact TryGetInt_string ops text out
  · rintro text rfl h1 h2
    exact TryGetInt_libc_of_fits text out h1 h2
  · rintro text rfl hp h1 h2
    rw [← subjectValue_eq_decimalPrefixValue text hp] at h1 h2 ⊢
    exact TryGetInt_libc_of_fits text out h1 h2
  · rintro text rfl hd
    have h0 : subjectValue text = 0 := by
      simp [subjectValue, hd, digitsValue]
    have := TryGetInt_libc_of_fits text out (by omega) (by omega)
    rw [h0] at this
    exact this
  · cases val with
    | number n => cases h : n.IsInt <;> simp [TryGetInt, Value.IsInt, Value.IsString, h]
    | _ => simp [TryGetInt, Value.IsInt, Value.IsString, SDL_strtol]
  · rintro text rfl
    exact TryGetUint_string ops text outUint

/-- C11, amended, at concrete inputs: the text "abc" is accepted with `out` = 0,
"12px" with `out` = 12 and "-40" with `out` = -40, the number 41 with `out` =
41, and the boolean true is refused with `out` left at 5; `TryGetUint` accepts
"abc" too. -/
theorem TryGetInt_accepts_every_string_witness :
    TryGetInt libcIntegerOps (Value.string "abc") 5 = (true, 0) ∧
    TryGetInt libcIntegerOps (Value.string "12px") 5 = (true, 12) ∧
    TryGetInt libcIntegerOps (Value.string "-40") 5 = (true, -40) ∧
    TryGetInt libcIntegerOps (Value.number (JsonNumber.int 41)) 5 = (true, 41) ∧
    (TryGetInt libcIntegerOps (Value.bool true) 5).2 = 5 ∧
    TryGetUint libcIntegerOps (Value.string "abc") 9 = (true, 0) :=
  ⟨(TryGetInt_accepts_every_string libcIntegerOps (Value.string "abc") 5 9).2.2.2.2.2.1
      "abc" rfl (by decide),
   (TryGetInt_accepts_every_string libcIntegerOps (Value.string "12px") 5 9).2.2.2.2.1
      "12px" rfl (by decide) (by decide) (by decide),
   (TryGetInt_accepts_every_string libcIntegerOps (Value.string "-40") 5 9).2.2.2.1
      "-40" rfl (by decide) (by decide),
   (TryGetInt_accepts_every_string libcIntegerOps (Value.number (JsonNumber.int 41)) 5 9).2.1
      (by decide),
   (TryGetInt_accepts_every_string libcIntegerOps (Value.bool true) 5 9).2.2.2.2.2.2.1
      (by decide),
   (TryGetInt_accepts_every_string libcIntegerOps (Value.string "abc") 5 9).2.2.2.2.2.2.2
      "abc" rfl⟩

/-! ## Asset paths and vectors -/

/-- C13: `TryGetAssetPath` on a JSON string returns true with `Mount` empty,
`Id` = 0 and `FileName` the string; on a JSON object it returns, and returns
true if and only if the object has a member `Id` that `TryGetUint` accepts and
a member `Mount` that is a string, and then `Id` and `Mount` are set from those
members while `FileName` keeps the value it had; on a value that is neither a
string nor an object it returns false and leaves `out` unchanged. -/
theorem TryGetAssetPath_by_cases (ops : IntegerOps) (val : Value) (out : AssetPath) :
    (∀ text, val = Value.string text →
      TryGetAssetPath ops val out =
        some (true, { Mount := "", Id := 0, FileName := text })) ∧
    (val.IsObject = true →
      ∃ r, TryGetAssetPath ops val out = some r ∧
        (r.1 = true ↔
          (∃ idValue, val.FindMember "Id" = some (some idValue) ∧
            (TryGetUint ops idValue out.Id).1 = true) ∧
          ∃ mount, val.FindMember "Mount" = some (some (Value.string mount)))) ∧
    (val.IsObject = true → ∀ idValue mount,
      val.FindMember "Id" = some (some idValue) → (TryGetUint ops idValue out.Id).1 = true →
      val.FindMember "Mount" = some (some (Value.string mount)) →
      TryGetAssetPath ops val out =
        some (true, { Mount := mount, Id := (TryGetUint ops idValue out.Id).2,
                      FileName := out.FileName })) ∧
    (val.IsString = false → val.IsObject = false →
      TryGetAssetPath ops val out = some (false, out)) := by
  refine ⟨?_, ?_, ?_, ?_⟩
  · rintro text rfl
    simp [TryGetAssetPath, Value.IsString, Value.GetString]
  · intro ho
    have hs : val.IsString = false := by
      cases val <;> simp_all [Value.IsObject, Value.IsString]
    obtain ⟨foundId, hid⟩ := FindMember_of_object ho "Id"
    obtain ⟨foundMount, hm⟩ := FindMember_of_object ho "Mount"
    cases foundId with
    | none =>
      exact ⟨_, by simp [TryGetAssetPath, hs, ho, TryGetMemberUint, hid]; rfl, by simp [hid]⟩
    | some idValue =>
      cases hacc : (TryGetUint ops idValue out.Id).1 with
      | false =>
        exact ⟨_, by simp [TryGetAssetPath, hs, ho, TryGetMemberUint, hid, hacc]; rfl,
          by simp [hid, hacc]⟩
      | true =>
        cases foundMount with
        | none =>
          exact ⟨_, by
            simp [TryGetAssetPath, hs, ho, TryGetMemberUint, hid, hacc, TryGetMemberString, hm]
            rfl, by simp [hm]⟩
        | some m =>
          cases m <;>
            exact ⟨_, by
              simp [TryGetAssetPath, hs, ho, TryGetMemberUint, hid, hacc, TryGetMemberString,
                hm, TryGetString]
              rfl, by simp [hid, hacc, hm]⟩
  · intro ho idValue mount hid hacc hm
    have hs : val.IsString = false := by
      cases val <;> simp_all [Value.IsObject, Value.IsString]
    simp [TryGetAssetPath, hs, ho, TryGetMemberUint, hid, hacc, TryGetMemberString, hm,
      TryGetString]
  · intro hs ho
    simp [TryGetAssetPath, hs, ho]

/-- C13 at concrete inputs: a string gives a bare file name; an object with
`Id` 12 and `Mount` "bg" sets those two and keeps the file name "keep.png";
a number is refused with `out` untouched. -/
theorem TryGetAssetPath_by_cases_witness :
    TryGetAssetPath libcIntegerOps (Value.string "title.png")
        { Mount := "old", Id := 3, FileName := "keep.png" } =
      some (true, { Mount := "", Id := 0, FileName := "title.png" }) ∧
    TryGetAssetPath libcIntegerOps
        (Value.object [("Id", Value.number (JsonNumber.int 12)), ("Mount", Value.string "bg")])
        { Mount := "old", Id := 3, FileName := "keep.png" } =
      some (true, { Mount := "bg", Id := 12, FileName := "keep.png" }) ∧
    TryGetAssetPath libcIntegerOps (Value.number (JsonNumber.int 12))
        { Mount := "old", Id := 3, FileName := "keep.png" } =
      some (false, { Mount := "old", Id := 3, FileName := "keep.png" }) :=
  ⟨(TryGetAssetPath_by_cases libcIntegerOps (Value.string "title.png")
      { Mount := "old", Id := 3, FileName := "keep.png" }).1 "title.png" rfl,
   (TryGetAssetPath_by_cases libcIntegerOps
      (Value.object [("Id", Value.number (JsonNumber.int 12)), ("Mount", Value.string "bg")])
      { Mount := "old", Id := 3, FileName := "keep.png" }).2.2.1 rfl
      (Value.number (JsonNumber.int 12)) "bg" rfl (by decide) rfl,
   (TryGetAssetPath_by_cases libcIntegerOps (Value.number (JsonNumber.int 12))
      { Mount := "old", Id := 3, FileName := "keep.png" }).2.2.2 rfl rfl⟩

/-- C14: `TryGetVec2` is not atomic on failure: on a JSON object whose member `X`
is a number and whose member `Y` is absent, or is neither a number nor a
string, it returns false, yet `out.x` has been overwritten with the value of
`X` while `out.y` is unchanged; on a value that is not an object, or an object
without an acceptable `X` (absent, or neither a number nor a string), it
returns false and leaves `out` entirely unchanged. -/
theorem TryGetVec2_not_atomic_on_failure {F : Type} (fp : FloatOps F) (val : Value)
    (out : Vec2 F) :
    (∀ n, val.IsObject = true → val.FindMember "X" = some (some (Value.number n)) →
      (val.FindMember "Y" = some none ∨
        ∃ y, val.FindMember "Y" = some (some y) ∧ y.IsNumber = false ∧ y.IsString = false) →
      TryGetVec2 fp val out = some (false, { x := fp.GetFloat n, y := out.y })) ∧
    (val.IsObject = false → TryGetVec2 fp val out = some (false, out)) ∧
    (val.IsObject = true →
      (val.FindMember "X" = some none ∨
        ∃ x, val.FindMember "X" = some (some x) ∧ x.IsNumber = false ∧ x.IsString = false) →
      TryGetVec2 fp val out = some (false, out)) := by
  refine ⟨?_, ?_, ?_⟩
  · intro n ho hx hy
    rcases hy with hy | ⟨y, hy, hn, hs⟩
    · simp [TryGetVec2, ho, TryGetMemberFloat, hx, hy, TryGetFloat]
    · cases y <;> simp [Value.IsNumber, Value.IsString] at hn hs <;>
        simp [TryGetVec2, ho, TryGetMemberFloat, hx, hy, TryGetFloat]
  · intro ho
    simp [TryGetVec2, ho]
  · intro ho hx
    rcases hx with hx | ⟨x, hx, hn, hs⟩
    · simp [TryGetVec2, ho, TryGetMemberFloat, hx]
    · cases x <;> simp [Value.IsNumber, Value.IsString] at hn hs <;>
        simp [TryGetVec2, ho, TryGetMemberFloat, hx, TryGetFloat]

/-- C14 at concrete inputs, starting from `out` = (1, 2): an object holding only
`X` = 4 fails and leaves (4, 2); an object whose `Y` is a boolean does the
same; an object holding only `Y` fails and leaves (1, 2), and so does an
array. -/
theorem TryGetVec2_not_atomic_on_failure_witness :
    TryGetVec2 sampleFloatOps (Value.object [("X", Value.number (JsonNumber.int 4))])
        { x := 1, y := 2 } = some (false, { x := 4, y := 2 }) ∧
    TryGetVec2 sampleFloatOps
        (Value.object [("X", Value.number (JsonNumber.int 4)), ("Y", Value.bool true)])
        { x := 1, y := 2 } = some (false, { x := 4, y := 2 }) ∧
    TryGetVec2 sampleFloatOps (Value.object [("Y", Value.number (JsonNumber.int 4))])
        { x := 1, y := 2 } = some (false, { x := 1, y := 2 }) ∧
    TryGetVec2 sampleFloatOps (Value.array []) { x := 1, y := 2 } =
      some (false, { x := 1, y := 2 }) :=
  ⟨(TryGetVec2_not_atomic_on_failure sampleFloatOps
      (Value.object [("X", Value.number (JsonNumber.int 4))]) { x := 1, y := 2 }).1
      (JsonNumber.int 4) rfl rfl (Or.inl rfl),
   (TryGetVec2_not_atomic_on_failure sampleFloatOps
      (Value.object [("X", Value.number (JsonNumber.int 4)), ("Y", Value.bool true)])
      { x := 1, y := 2 }).1
      (JsonNumber.int 4) rfl rfl (Or.inr ⟨Value.bool true, rfl, rfl, rfl⟩),
   (TryGetVec2_not_atomic_on_failure sampleFloatOps
      (Value.object [("Y", Value.number (JsonNumber.int 4))]) { x := 1, y := 2 }).2.2
      rfl (Or.inl rfl),
   (TryGetVec2_not_atomic_on_failure sampleFloatOps (Value.array []) { x := 1, y := 2 }).2.1
      rfl⟩

end Profile

end Impacto
